import Mathlib

/-!
Verification of the jfabello http-client request lifecycle engine.

This development gives a shallow embedding in Lean 4 of the canonical draft of
the client (src/unnamed/part_003 together with src/src/http-client-constants.js,
src/src/http-client-defaults.js and the validating HTTPResponse class of
src/unnamed/part_002), and proves or refutes the frozen claims about it.

JavaScript dynamic values are modelled by the inductive type JSVal, which keeps
just enough structure to decide the dynamic checks the source performs
(typeof dispatch, instanceof URL / Buffer, Number.isInteger).  Platform
collaborators that are out of scope for the repository (the URL parser,
Buffer.from text decoding, Buffer.prototype.toString, JSON.parse and the
content-type parser) are taken as explicit function parameters of the embedded
operations; JSON.stringify is modelled concretely on finite object graphs so
that its failure on a self-cycle is computed, not assumed.
-/

/-- A field value inside a JavaScript object graph: a JSON-style leaf or a
reference to another node of the graph (references are what make cycles, and
hence JSON.stringify failures, representable). -/
inductive JField where
  | jfNull
  | jfBool (b : Bool)
  | jfNum (n : Int)
  | jfStr (s : String)
  | jfRef (idx : Nat)
deriving DecidableEq, Repr

/-- A finite JavaScript object graph: node i carries the ordered field list
nodes[i]; root names the node the value denotes.  A jfRef field pointing back
to an ancestor models a cyclic object. -/
structure ObjGraph where
  nodes : List (List (String × JField))
  root : Nat
deriving DecidableEq, Repr

/-- Model of the JavaScript runtime values the client's dynamic checks can
meet: undefined, null, booleans, numbers (split into integers and an opaque
non-integer), strings, URL instances (kept as their protocol and origin),
Buffer instances (kept as their byte list), plain objects whose values are
strings (Node header maps), and general object graphs. -/
inductive JSVal where
  | undefined
  | null
  | boolean (b : Bool)
  | numberInt (n : Int)
  | numberNonInt
  | string (s : String)
  | urlObject (protocol : String) (origin : String)
  | buffer (bytes : List Nat)
  | strMap (fields : List (String × String))
  | object (g : ObjGraph)
deriving DecidableEq, Repr

/-- The JavaScript typeof operator on modelled values; note typeof null is
"object", as in JavaScript. -/
def typeofJS : JSVal → String
  | .undefined => "undefined"
  | .null => "object"
  | .boolean _ => "boolean"
  | .numberInt _ => "number"
  | .numberNonInt => "number"
  | .string _ => "string"
  | .urlObject _ _ => "object"
  | .buffer _ => "object"
  | .strMap _ => "object"
  | .object _ => "object"

/-- The instanceof URL test on modelled values. -/
def instanceofURL : JSVal → Bool
  | .urlObject _ _ => true
  | _ => false

/-- The instanceof Buffer test on modelled values. -/
def instanceofBuffer : JSVal → Bool
  | .buffer _ => true
  | _ => false

/-- Number.isInteger on modelled values: true exactly on integer numbers. -/
def numberIsIntegerJS : JSVal → Bool
  | .numberInt _ => true
  | _ => false

/-- The integer carried by an integer number value (0 on any other value; only
read under a numberIsIntegerJS guard). -/
def jsNumberValue : JSVal → Int
  | .numberInt n => n
  | _ => 0

/-- The string carried by a string value (empty on any other value; only read
under a typeof guard). -/
def jsStringValue : JSVal → String
  | .string s => s
  | _ => ""

/-- The boolean carried by a boolean value (false on any other value; only
read under a typeof guard). -/
def jsBooleanValue : JSVal → Bool
  | .boolean b => b
  | _ => false

/-- JavaScript String.prototype.toUpperCase restricted to basic latin
letters, modelled structurally so that proofs can evaluate it. -/
def toUpperJS (s : String) : String := String.mk (s.data.map Char.toUpper)

/-- JavaScript String.prototype.toLowerCase restricted to basic latin
letters, modelled structurally so that proofs can evaluate it. -/
def toLowerJS (s : String) : String := String.mk (s.data.map Char.toLower)

/-- Wrap a string in JSON double quotes (escape sequences are not modelled;
the concrete strings used in this development need none). -/
def jsonQuote (s : String) : String := "\"" ++ s ++ "\""

/-- Collect a list of optional values, failing if any entry is missing. -/
def sequenceOptions {α : Type} : List (Option α) → Option (List α)
  | [] => some []
  | none :: _ => none
  | some a :: rest => (sequenceOptions rest).map (fun l => a :: l)

/-- Serialize node i of an object graph, JSON.stringify style: visiting a node
already on the ancestor stack means the graph is cyclic, which JSON.stringify
reports by throwing, modelled here as none.  The fuel argument bounds the
recursion depth; nodes.length + 1 is always enough because the stack only ever
collects distinct node indices. -/
def stringifyNode (nodes : List (List (String × JField))) : Nat → List Nat → Nat → Option String
  | 0, _, _ => none
  | fuel + 1, stack, i =>
    if stack.contains i then none
    else
      match nodes.get? i with
      | none => none
      | some fields =>
        let parts := fields.map (fun kv =>
          (match kv.2 with
           | .jfNull => some "null"
           | .jfBool b => some (if b then "true" else "false")
           | .jfNum n => some (toString n)
           | .jfStr s => some (jsonQuote s)
           | .jfRef j => stringifyNode nodes fuel (i :: stack) j).map
            (fun v => jsonQuote kv.1 ++ ":" ++ v))
        match sequenceOptions parts with
        | none => none
        | some vs => some ("\x7b" ++ String.intercalate "," vs ++ "\x7d")

/-- JSON.stringify of a whole object graph; none models the TypeError thrown
on a circular structure. -/
def ObjGraph.stringify (g : ObjGraph) : Option String :=
  stringifyNode g.nodes (g.nodes.length + 1) [] g.root

/-- Model of JSON.stringify restricted to the values that can reach the
structured-body branch of HTTPClient.#convertRequestBodyToBuffer (typeof
"object" and not a Buffer: null, URL instances, header-style maps and object
graphs).  URL instances serialize through URL.prototype.toJSON, modelled by
their origin text; the remaining branches are unreachable from that call site
and return none. -/
def jsonStringifyJS : JSVal → Option String
  | .null => some "null"
  | .urlObject _ origin => some (jsonQuote origin)
  | .strMap fields =>
    some ("\x7b" ++
      String.intercalate "," (fields.map (fun kv => jsonQuote kv.1 ++ ":" ++ jsonQuote kv.2)) ++
      "\x7d")
  | .object g => g.stringify
  | .buffer bytes =>
    some ("\x7b\"type\":\"Buffer\",\"data\":[" ++
      String.intercalate "," (bytes.map (fun b => toString b)) ++ "]\x7d")
  | _ => none

/-- UTF-8 byte encoding of a string, as a list of byte values; models
Buffer.from(s, "utf8"). -/
def utf8Bytes (s : String) : List Nat := s.toUTF8.toList.map (fun b => b.toNat)

/-- constants.HTTP_METHODS of src/src/http-client-constants.js line 13. -/
def constants.HTTP_METHODS : List String :=
  ["GET", "POST", "PUT", "DELETE", "PATCH", "HEAD"]

/-- constants.BODY_ENCODINGS of src/src/http-client-constants.js line 14. -/
def constants.BODY_ENCODINGS : List String :=
  ["utf8", "utf-8", "utf16le", "utf-16le", "ucs2", "ucs-2", "latin1", "ascii", "base64", "base64url", "hex"]

/-- constants.HTTP_METHODS of the superseded draft src/constants.js line 13,
which omits HEAD; recorded for comparison with the canonical set. -/
def legacyConstants.HTTP_METHODS : List String :=
  ["GET", "POST", "PUT", "DELETE", "PATCH"]

/-- defaults.DEFAULT_SOCKET_TIMEOUT of src/src/http-client-defaults.js. -/
def defaults.DEFAULT_SOCKET_TIMEOUT : Int := 60000

/-- defaults.DEFAULT_BODY_ENCODING of src/src/http-client-defaults.js. -/
def defaults.DEFAULT_BODY_ENCODING : String := "utf8"

/-- defaults.DEFAULT_AUTO_JSON_RESPONSE_PARSE of
src/src/http-client-defaults.js. -/
def defaults.DEFAULT_AUTO_JSON_RESPONSE_PARSE : Bool := true

/-- The public error taxonomy of src/src/http-client-errors.js, plus the two
runtime families the client builds out of external inputs: a system error
mapped through createErrorFromSystemErrorCode (kept with its code) and
ERROR_UNKNOWN. -/
inductive HTTPClientError where
  | ERROR_HTTP_REQUEST_URL_TYPE_INVALID
  | ERROR_HTTP_REQUEST_URL_STRING_INVALID
  | ERROR_HTTP_REQUEST_URL_PROTOCOL_INVALID (protocol : String)
  | ERROR_HTTP_REQUEST_METHOD_TYPE_INVALID
  | ERROR_HTTP_REQUEST_METHOD_INVALID (method : String)
  | ERROR_HTTP_REQUEST_HEADERS_TYPE_INVALID
  | ERROR_HTTP_REQUEST_TIMEOUT_TYPE_INVALID
  | ERROR_HTTP_REQUEST_TIMEOUT_OUT_OF_BOUNDS
  | ERROR_HTTP_REQUEST_BODY_TYPE_INVALID
  | ERROR_HTTP_REQUEST_BODY_ENCODING_TYPE_INVALID
  | ERROR_HTTP_REQUEST_BODY_ENCODING_INVALID (encoding : String)
  | ERROR_AUTO_JSON_RESPONSE_PARSE_OPTION_TYPE_INVALID
  | ERROR_HTTP_REQUEST_MAKE_REQUEST_UNAVAILABLE
  | ERROR_HTTP_REQUEST_CANCEL_UNAVAILABLE
  | ERROR_HTTP_REQUEST_TIMED_OUT (origin : String) (timeout : Int)
  | ERROR_HTTP_RESPONSE_TIMED_OUT (origin : String) (timeout : Int)
  | ERROR_HTTP_REQUEST_CANCELLED (origin : String)
  | ERROR_HTTP_RESPONSE_BODY_NOT_PARSEABLE_AS_JSON
  | ERROR_HTTP_REQUEST_BODY_OBJECT_NOT_SERIALIZABLE
  | ERROR_SYSTEM_MAPPED (code : String)
  | ERROR_UNKNOWN
deriving DecidableEq, Repr

/-- The sibling taxonomy of src/src/http-response-errors.js raised by the
HTTPResponse constructor. -/
inductive HTTPResponseError where
  | ERROR_HTTP_RESPONSE_HEADERS_TYPE_INVALID
  | ERROR_HTTP_RESPONSE_STATUS_CODE_TYPE_INVALID
  | ERROR_HTTP_RESPONSE_STATUS_CODE_OUT_OF_BOUNDS
  | ERROR_HTTP_RESPONSE_STATUS_MESSAGE_TYPE_INVALID
  | ERROR_HTTP_RESPONSE_BODY_TYPE_INVALID
deriving DecidableEq, Repr

/-- A successfully constructed HTTPResponse value: validated headers, an
integer status code, a status message string and an optional body (absent when
the body argument was undefined). -/
structure HTTPResponseRec where
  headers : JSVal
  statusCode : Int
  statusMessage : String
  body : Option JSVal
deriving DecidableEq, Repr

/-- The HTTPResponse constructor of src/unnamed/part_002 (the validating
class used by the canonical client): the four dynamic checks in source order,
then the assembled value. -/
def HTTPResponse.construct (headers statusCode statusMessage body : JSVal) :
    Except HTTPResponseError HTTPResponseRec :=
  if typeofJS headers ≠ "object" then
    .error .ERROR_HTTP_RESPONSE_HEADERS_TYPE_INVALID
  else if typeofJS statusCode ≠ "number" ∨ numberIsIntegerJS statusCode = false then
    .error .ERROR_HTTP_RESPONSE_STATUS_CODE_TYPE_INVALID
  else if jsNumberValue statusCode < 100 ∨ 599 < jsNumberValue statusCode then
    .error .ERROR_HTTP_RESPONSE_STATUS_CODE_OUT_OF_BOUNDS
  else if typeofJS statusMessage ≠ "string" then
    .error .ERROR_HTTP_RESPONSE_STATUS_MESSAGE_TYPE_INVALID
  else if typeofJS body ≠ "undefined" then
    if typeofJS body ≠ "object" then
      .error .ERROR_HTTP_RESPONSE_BODY_TYPE_INVALID
    else
      .ok ⟨headers, jsNumberValue statusCode, jsStringValue statusMessage, some body⟩
  else
    .ok ⟨headers, jsNumberValue statusCode, jsStringValue statusMessage, none⟩

/-- A parsed request URL, kept as the two pieces the client reads: the
protocol (with trailing colon, as in the WHATWG URL API) and the origin. -/
structure URLRec where
  protocol : String
  origin : String
deriving DecidableEq, Repr

/-- The options bag of the HTTPClient constructor; a field holding
JSVal.undefined is an absent property, on which the destructuring default
fires. -/
structure CtorOptions where
  method : JSVal
  headers : JSVal
  timeout : JSVal
  body : JSVal
  bodyEncoding : JSVal
  autoJSONResponseParse : JSVal
deriving DecidableEq, Repr

/-- Destructuring default: the default value replaces undefined. -/
def orDefault (v d : JSVal) : JSVal := if v = JSVal.undefined then d else v

/-- The method option after its destructuring default. -/
def ctorMethod (o : CtorOptions) : JSVal := orDefault o.method (JSVal.string "GET")

/-- The headers option after its destructuring default. -/
def ctorHeaders (o : CtorOptions) : JSVal := orDefault o.headers (JSVal.strMap [])

/-- The timeout option after its destructuring default. -/
def ctorTimeout (o : CtorOptions) : JSVal :=
  orDefault o.timeout (JSVal.numberInt defaults.DEFAULT_SOCKET_TIMEOUT)

/-- The bodyEncoding option after its destructuring default. -/
def ctorBodyEncoding (o : CtorOptions) : JSVal :=
  orDefault o.bodyEncoding (JSVal.string defaults.DEFAULT_BODY_ENCODING)

/-- The autoJSONResponseParse option after its destructuring default. -/
def ctorAutoJSON (o : CtorOptions) : JSVal :=
  orDefault o.autoJSONResponseParse (JSVal.boolean defaults.DEFAULT_AUTO_JSON_RESPONSE_PARSE)

/-- Resolution of the url argument into a URLRec: a string goes through the
platform URL parser, a URL instance is used directly, anything else resolves
to nothing.  The parser for url strings is a parameter because the WHATWG URL
grammar is a platform collaborator, not repository code. -/
def resolvedURL (parseURL : String → Option URLRec) : JSVal → Option URLRec
  | .string s => parseURL s
  | .urlObject p o => some ⟨p, o⟩
  | _ => none

/-- The immutable configuration a successful HTTPClient construction produces,
holding the private instance fields the later operations read, with the state
set to CREATED as the constructor's last assignment. -/
inductive ClientState where
  | CREATED
  | REQUESTING
  | CANCELLING
  | FULFILLED
  | CANCELLED
  | FAILED
deriving DecidableEq, Repr

/-- The private instance fields the HTTPClient constructor populates. -/
structure HTTPClientConfig where
  requestURL : URLRec
  method : String
  headers : JSVal
  clientTimeout : Int
  requestBody : JSVal
  requestBodyEncoding : Option String
  autoJSONResponseParse : Bool
  clientState : ClientState
deriving DecidableEq, Repr

/-- The validations of the HTTPClient constructor of src/unnamed/part_003
lines 188-253, after the request URL has been resolved: every remaining
dynamic check in source order; on success a configuration in state CREATED,
every private field as the source assigns it (requestBody stays null and
requestBodyEncoding unset when no body option was given). -/
def HTTPClient.constructValidated (o : CtorOptions) (requestURL : URLRec) :
    Except HTTPClientError HTTPClientConfig :=
  if requestURL.protocol ≠ "http:" ∧ requestURL.protocol ≠ "https:" then
    .error (.ERROR_HTTP_REQUEST_URL_PROTOCOL_INVALID requestURL.protocol)
  else if typeofJS (ctorMethod o) ≠ "string" then
    .error .ERROR_HTTP_REQUEST_METHOD_TYPE_INVALID
  else if constants.HTTP_METHODS.contains (toUpperJS (jsStringValue (ctorMethod o))) = false then
    .error (.ERROR_HTTP_REQUEST_METHOD_INVALID (toUpperJS (jsStringValue (ctorMethod o))))
  else if typeofJS (ctorHeaders o) ≠ "undefined" ∧ typeofJS (ctorHeaders o) ≠ "object" then
    .error .ERROR_HTTP_REQUEST_HEADERS_TYPE_INVALID
  else if numberIsIntegerJS (ctorTimeout o) = false then
    .error .ERROR_HTTP_REQUEST_TIMEOUT_TYPE_INVALID
  else if jsNumberValue (ctorTimeout o) < 1 then
    .error .ERROR_HTTP_REQUEST_TIMEOUT_OUT_OF_BOUNDS
  else if typeofJS o.body ≠ "undefined" then
    if typeofJS o.body ≠ "string" ∧ typeofJS o.body ≠ "object" then
      .error .ERROR_HTTP_REQUEST_BODY_TYPE_INVALID
    else if typeofJS (ctorBodyEncoding o) ≠ "string" then
      .error .ERROR_HTTP_REQUEST_BODY_ENCODING_TYPE_INVALID
    else if constants.BODY_ENCODINGS.contains (toLowerJS (jsStringValue (ctorBodyEncoding o))) = false then
      .error (.ERROR_HTTP_REQUEST_BODY_ENCODING_INVALID (toLowerJS (jsStringValue (ctorBodyEncoding o))))
    else if typeofJS (ctorAutoJSON o) ≠ "boolean" then
      .error .ERROR_AUTO_JSON_RESPONSE_PARSE_OPTION_TYPE_INVALID
    else
      .ok ⟨requestURL, toUpperJS (jsStringValue (ctorMethod o)), ctorHeaders o,
        jsNumberValue (ctorTimeout o), o.body,
        some (toLowerJS (jsStringValue (ctorBodyEncoding o))),
        jsBooleanValue (ctorAutoJSON o), .CREATED⟩
  else if typeofJS (ctorAutoJSON o) ≠ "boolean" then
    .error .ERROR_AUTO_JSON_RESPONSE_PARSE_OPTION_TYPE_INVALID
  else
    .ok ⟨requestURL, toUpperJS (jsStringValue (ctorMethod o)), ctorHeaders o,
      jsNumberValue (ctorTimeout o), JSVal.null, none,
      jsBooleanValue (ctorAutoJSON o), .CREATED⟩

/-- The HTTPClient constructor of src/unnamed/part_003 lines 168-253: the two
URL type guards, the URL resolution, and then the remaining validations of
HTTPClient.constructValidated. -/
def HTTPClient.construct (parseURL : String → Option URLRec) (url : JSVal) (o : CtorOptions) :
    Except HTTPClientError HTTPClientConfig :=
  if typeofJS url ≠ "string" ∧ typeofJS url ≠ "object" then
    .error .ERROR_HTTP_REQUEST_URL_TYPE_INVALID
  else if typeofJS url = "object" ∧ instanceofURL url = false then
    .error .ERROR_HTTP_REQUEST_URL_TYPE_INVALID
  else
    match resolvedURL parseURL url with
    | none => .error .ERROR_HTTP_REQUEST_URL_STRING_INVALID
    | some requestURL => HTTPClient.constructValidated o requestURL

/-- HTTPClient.#convertRequestBodyToBuffer of src/unnamed/part_003 lines
519-543: a string body is decoded through Buffer.from under the stored
encoding (bufferFromString is the platform text decoder, a parameter); an
object body that is not a Buffer goes through JSON.stringify, a failure there
becoming ERROR_HTTP_REQUEST_BODY_OBJECT_NOT_SERIALIZABLE, and the serialized
text is encoded with Buffer.from(serialized, "utf8"), modelled by utf8Bytes;
a Buffer body passes through; and any other value falls to the final throw of
ERROR_HTTP_REQUEST_BODY_TYPE_INVALID. -/
def HTTPClient.convertRequestBodyToBuffer
    (bufferFromString : String → Option String → List Nat)
    (requestBody : JSVal) (requestBodyEncoding : Option String) :
    Except HTTPClientError (List Nat) :=
  if typeofJS requestBody = "string" then
    .ok (bufferFromString (jsStringValue requestBody) requestBodyEncoding)
  else if typeofJS requestBody = "object" ∧ instanceofBuffer requestBody = false then
    match jsonStringifyJS requestBody with
    | none => .error .ERROR_HTTP_REQUEST_BODY_OBJECT_NOT_SERIALIZABLE
    | some serialized => .ok (utf8Bytes serialized)
  else if typeofJS requestBody = "object" ∧ instanceofBuffer requestBody = true then
    .ok (match requestBody with | .buffer b => b | _ => [])
  else
    .error .ERROR_HTTP_REQUEST_BODY_TYPE_INVALID

/-- The observable outcome of HTTPClient.#sendRequestBody before any bytes go
out: which Content-Length header is set on the outgoing head, which buffer is
scheduled for writing, and which error (if any) is handed to teardown. -/
structure SendRequestBodyPlan where
  contentLengthHeader : Option Nat
  bodyBuffer : Option (List Nat)
  teardownError : Option HTTPClientError
deriving DecidableEq, Repr

/-- HTTPClient.#sendRequestBody of src/unnamed/part_003 lines 429-512,
restricted to its header/error behaviour: with no body (requestBody still
null) the request is ended with no Content-Length header; otherwise the body
is converted to a buffer, a conversion throw is handed to teardown, and on
success the Content-Length header is set to exactly the buffer's length
before the chunked write loop starts. -/
def HTTPClient.sendRequestBodyPlan
    (bufferFromString : String → Option String → List Nat)
    (requestBody : JSVal) (requestBodyEncoding : Option String) : SendRequestBodyPlan :=
  if requestBody = JSVal.null then ⟨none, none, none⟩
  else
    match HTTPClient.convertRequestBodyToBuffer bufferFromString requestBody requestBodyEncoding with
    | .error e => ⟨none, none, some e⟩
    | .ok buf => ⟨some buf.length, some buf, none⟩

/-- The object the content-type module's parse function returns, with the
type and parameters properties kept optional because the source defensively
tests for their presence with the in operator. -/
structure ContentTypeObj where
  ty : Option String
  parameters : Option (List (String × String))
deriving DecidableEq, Repr

/-- Lookup of a response header by name in a Node header map. -/
def lookupHeader (headers : List (String × String)) (k : String) : Option String :=
  (headers.find? (fun kv => kv.1 = k)).map (fun kv => kv.2)

/-- HTTPClient.#getResponseContentType of src/unnamed/part_003 lines 615-641:
nothing without a response, without a content-type header, on a content-type
parse failure or without a type property; otherwise the parsed type/subtype.
The content-type grammar lives in the external content-type module, so the
parse function is a parameter. -/
def HTTPClient.getResponseContentType
    (parseContentType : String → Option ContentTypeObj)
    (clientResponseHeaders : Option (List (String × String))) : Option String :=
  match clientResponseHeaders with
  | none => none
  | some headers =>
    match lookupHeader headers "content-type" with
    | none => none
    | some raw =>
      match parseContentType raw with
      | none => none
      | some cto => cto.ty

/-- HTTPClient.#getResponseContentTypeCharset of src/unnamed/part_003 lines
647-677: like getResponseContentType but reading the charset parameter. -/
def HTTPClient.getResponseContentTypeCharset
    (parseContentType : String → Option ContentTypeObj)
    (clientResponseHeaders : Option (List (String × String))) : Option String :=
  match clientResponseHeaders with
  | none => none
  | some headers =>
    match lookupHeader headers "content-type" with
    | none => none
    | some raw =>
      match parseContentType raw with
      | none => none
      | some cto =>
        match cto.parameters with
        | none => none
        | some params => lookupHeader params "charset"

/-- What the response "end" handler does after clearing the response timer:
either it stores an assembled HTTPResponse and tears down successfully,
or it tears down with an error, or an exception thrown by the HTTPResponse
constructor escapes the handler uncaught (so neither settlement happens). -/
inductive EndOutcome where
  | settledOk (r : HTTPResponseRec)
  | toreDown (e : HTTPClientError)
  | threw (e : HTTPResponseError)
deriving DecidableEq, Repr

/-- The lowercased charset the end handler derives for the response body:
the content-type charset parameter lowercased, defaulting to utf8 when
absent. -/
def HTTPClient.responseCharsetOf (parseContentType : String → Option ContentTypeObj)
    (responseHeaders : List (String × String)) : String :=
  match HTTPClient.getResponseContentTypeCharset parseContentType (some responseHeaders) with
  | some cs => toLowerJS cs
  | none => "utf8"

/-- The response "end" handler of src/unnamed/part_003 lines 347-390: an
empty accumulated body yields a bodyless response; otherwise the chunks are
concatenated, the content type and its lowercased charset (defaulting to
utf8) are read, and the raw buffer is the body unless automatic JSON parsing
is on, the type/subtype is application/json and the charset is in
constants.BODY_ENCODINGS, in which case the buffer is decoded under the
charset (bufferToString models Buffer.prototype.toString) and JSON-parsed
(jsonParseFn models JSON.parse, nothing meaning a throw), a parse throw
tearing the client down with
ERROR_HTTP_RESPONSE_BODY_NOT_PARSEABLE_AS_JSON. -/
def HTTPClient.processResponseEnd
    (parseContentType : String → Option ContentTypeObj)
    (bufferToString : List Nat → String → String)
    (jsonParseFn : String → Option JSVal)
    (autoJSONResponseParse : Bool)
    (responseHeaders : List (String × String))
    (statusCode statusMessage : JSVal)
    (bodyChunks : List (List Nat)) : EndOutcome :=
  let responseBodyBufferSize := (bodyChunks.map List.length).sum
  if responseBodyBufferSize = 0 then
    match HTTPResponse.construct (.strMap responseHeaders) statusCode statusMessage .undefined with
    | .error e => .threw e
    | .ok r => .settledOk r
  else
    let responseBodyBuffer := bodyChunks.flatten
    let responseContentType :=
      HTTPClient.getResponseContentType parseContentType (some responseHeaders)
    let responseContentTypeCharset :=
      HTTPClient.responseCharsetOf parseContentType responseHeaders
    if autoJSONResponseParse = false ∨ responseContentType ≠ some "application/json" ∨
        constants.BODY_ENCODINGS.contains responseContentTypeCharset = false then
      match HTTPResponse.construct (.strMap responseHeaders) statusCode statusMessage
          (.buffer responseBodyBuffer) with
      | .error e => .threw e
      | .ok r => .settledOk r
    else
      match jsonParseFn (bufferToString responseBodyBuffer responseContentTypeCharset) with
      | none => .toreDown .ERROR_HTTP_RESPONSE_BODY_NOT_PARSEABLE_AS_JSON
      | some v =>
        match HTTPResponse.construct (.strMap responseHeaders) statusCode statusMessage v with
        | .error e => .threw e
        | .ok r => .settledOk r

/-- Settlement of the perform-future: resolution with a response value or
rejection with an error. -/
inductive Settlement where
  | resolvedWith (r : HTTPResponseRec)
  | rejectedWith (e : HTTPClientError)
deriving DecidableEq, Repr

/-- Whether an error is an ERROR_HTTP_REQUEST_CANCELLED instance, the test
teardown's deferred block makes with instanceof. -/
def isRequestCancelledError : HTTPClientError → Bool
  | .ERROR_HTTP_REQUEST_CANCELLED _ => true
  | _ => false

/-- The mutable per-instance state of a client whose makeRequest has been (or
may be) called, abstracting the transport handles to the facts the handlers
test: which timers are armed, whether teardown ran and with which recorded
cause, whether its deferred settling block is still queued, how the
perform-future settled, the identity token of each future, and which
transport milestones have happened. -/
structure Client where
  clientState : ClientState
  origin : String
  clientTimeout : Int
  requestPromise : Option Nat
  cancelPromise : Option Nat
  teardownInitiated : Bool
  requestTimerArmed : Bool
  responseTimerArmed : Bool
  teardownCause : Option (Option HTTPClientError)
  settleScheduled : Bool
  requestSettled : Option Settlement
  cancelFutureResolved : Bool
  httpResponse : Option HTTPResponseRec
  transportDestroyed : Bool
  socketSeen : Bool
  requestFinished : Bool
  responseStarted : Bool
  responseEnded : Bool
deriving DecidableEq, Repr

/-- HTTPClient.#teardown of src/unnamed/part_003 lines 563-609, synchronous
part: a second call is a no-op; the first call clears both timers, destroys
the transport halves exactly when there is an error cause, records the cause
and queues the deferred settling block (the setImmediate body). -/
def Client.teardown (c : Client) (error : Option HTTPClientError) : Client :=
  if c.teardownInitiated then c
  else
    { c with
      teardownInitiated := true
      requestTimerArmed := false
      responseTimerArmed := false
      transportDestroyed := c.transportDestroyed || error.isSome
      teardownCause := some error
      settleScheduled := true }

/-- The deferred settling block of HTTPClient.#teardown (the setImmediate
body, lines 589-608): on an ERROR_HTTP_REQUEST_CANCELLED cause the
httprequestcancelled acknowledgement fires (resolving the cancel-future if
one exists), the state becomes CANCELLED and the perform-future rejects; on
any other error cause the state becomes FAILED and the perform-future
rejects; with no error cause the state becomes FULFILLED and the
perform-future resolves when a response was stored, or FAILED with
ERROR_UNKNOWN otherwise. -/
def Client.runDeferredSettle (c : Client) : Client :=
  match c.teardownCause with
  | some (some e) =>
    if isRequestCancelledError e then
      { c with
        settleScheduled := false
        cancelFutureResolved := c.cancelFutureResolved || c.cancelPromise.isSome
        clientState := .CANCELLED
        requestSettled := some (.rejectedWith e) }
    else
      { c with
        settleScheduled := false
        clientState := .FAILED
        requestSettled := some (.rejectedWith e) }
  | some none =>
    match c.httpResponse with
    | some r =>
      { c with
        settleScheduled := false
        clientState := .FULFILLED
        requestSettled := some (.resolvedWith r) }
    | none =>
      { c with
        settleScheduled := false
        clientState := .FAILED
        requestSettled := some (.rejectedWith .ERROR_UNKNOWN) }
  | none => c

/-- HTTPClient.makeRequest of src/unnamed/part_003 lines 266-395, at the
state-machine level: in REQUESTING it returns the existing perform-future
unchanged; in any state other than CREATED it throws
ERROR_HTTP_REQUEST_MAKE_REQUEST_UNAVAILABLE; from CREATED it moves to
REQUESTING and creates the perform-future (token 1). -/
def Client.makeRequest (c : Client) : Except HTTPClientError (Client × Option Nat) :=
  if c.clientState = .REQUESTING then .ok (c, c.requestPromise)
  else if c.clientState ≠ .CREATED then .error .ERROR_HTTP_REQUEST_MAKE_REQUEST_UNAVAILABLE
  else
    .ok ({ c with clientState := .REQUESTING, requestPromise := some 1 }, some 1)

/-- HTTPClient.cancelRequest of src/unnamed/part_003 lines 402-424: in
CANCELLING it returns the existing cancel-future unchanged; in any state
other than REQUESTING it throws ERROR_HTTP_REQUEST_CANCEL_UNAVAILABLE; from
REQUESTING it moves to CANCELLING, creates the cancel-future (token 2) and
emits cancelhttprequest, whose once-listener calls teardown with
ERROR_HTTP_REQUEST_CANCELLED of the request origin. -/
def Client.cancelRequest (c : Client) : Except HTTPClientError (Client × Option Nat) :=
  if c.clientState = .CANCELLING then .ok (c, c.cancelPromise)
  else if c.clientState ≠ .REQUESTING then .error .ERROR_HTTP_REQUEST_CANCEL_UNAVAILABLE
  else
    .ok (({ c with clientState := .CANCELLING, cancelPromise := some 2 }).teardown
      (some (.ERROR_HTTP_REQUEST_CANCELLED c.origin)), some 2)

/-- The serialized events one instance can observe: the two public calls, the
transport milestones (socket ready with the body conversion outcome, request
finish, response head, response data, response end with its outcome), the two
timer firings, a request error carrying an optional system code, and the run
of teardown's deferred settling block. -/
inductive Event where
  | makeRequestCall
  | cancelRequestCall
  | socketReady
  | socketReadyConversionFailed (e : HTTPClientError)
  | requestFinish
  | requestTimerFired
  | responseTimerFired
  | requestErrorEvent (code : Option String)
  | responseHeadReceived
  | responseDataChunk
  | responseEndOk (r : HTTPResponseRec)
  | responseEndJsonFailure
  | responseEndCrash
  | deferredSettleRuns
deriving DecidableEq, Repr

/-- HTTPClient.#convertSystemErrorToStandardError of src/unnamed/part_003
lines 550-557: an error carrying a system code maps through
createErrorFromSystemErrorCode, anything else becomes ERROR_UNKNOWN. -/
def convertSystemErrorToStandardError : Option String → HTTPClientError
  | some code => .ERROR_SYSTEM_MAPPED code
  | none => .ERROR_UNKNOWN

/-- One serialized scheduling step of an instance: the handler src/unnamed/
part_003 registers for the event, run atomically, with a guard expressing
when the transport contract lets the event occur (none when it cannot occur
or the handler leaves the instance unchanged after a thrown public call).
The socket handler arms the request timer (a conversion failure then tears
down); the finish handler clears the request timer and arms the response
timer whose callback tears down with ERROR_HTTP_RESPONSE_TIMED_OUT; the
request timer callback tears down with ERROR_HTTP_REQUEST_TIMED_OUT; request
errors tear down with the mapped error; data chunks only refresh; the end
handler clears the response timer and then settles, fails JSON parsing, or
lets an HTTPResponse constructor exception escape. -/
def step (e : Event) (c : Client) : Option Client :=
  match e with
  | .makeRequestCall =>
    match c.makeRequest with
    | .error _ => none
    | .ok (c', _) => some c'
  | .cancelRequestCall =>
    match c.cancelRequest with
    | .error _ => none
    | .ok (c', _) => some c'
  | .socketReady =>
    if c.requestPromise.isSome ∧ ¬c.socketSeen ∧ ¬c.transportDestroyed then
      some { c with socketSeen := true, requestTimerArmed := true }
    else none
  | .socketReadyConversionFailed err =>
    if c.requestPromise.isSome ∧ ¬c.socketSeen ∧ ¬c.transportDestroyed then
      some (({ c with socketSeen := true, requestTimerArmed := true }).teardown (some err))
    else none
  | .requestFinish =>
    if c.socketSeen ∧ ¬c.requestFinished ∧ ¬c.transportDestroyed then
      some { c with requestFinished := true, requestTimerArmed := false, responseTimerArmed := true }
    else none
  | .requestTimerFired =>
    if c.requestTimerArmed then
      some (({ c with requestTimerArmed := false }).teardown
        (some (.ERROR_HTTP_REQUEST_TIMED_OUT c.origin c.clientTimeout)))
    else none
  | .responseTimerFired =>
    if c.responseTimerArmed then
      some (({ c with responseTimerArmed := false }).teardown
        (some (.ERROR_HTTP_RESPONSE_TIMED_OUT c.origin c.clientTimeout)))
    else none
  | .requestErrorEvent code =>
    if c.requestPromise.isSome then
      some (c.teardown (some (convertSystemErrorToStandardError code)))
    else none
  | .responseHeadReceived =>
    if c.socketSeen ∧ ¬c.responseStarted ∧ ¬c.transportDestroyed then
      some { c with responseStarted := true }
    else none
  | .responseDataChunk =>
    if c.responseStarted ∧ ¬c.responseEnded ∧ ¬c.transportDestroyed then some c
    else none
  | .responseEndOk r =>
    if c.responseStarted ∧ ¬c.responseEnded ∧ ¬c.transportDestroyed then
      some (({ c with
        responseEnded := true
        responseTimerArmed := false
        httpResponse := some r }).teardown none)
    else none
  | .responseEndJsonFailure =>
    if c.responseStarted ∧ ¬c.responseEnded ∧ ¬c.transportDestroyed then
      some (({ c with responseEnded := true, responseTimerArmed := false }).teardown
        (some .ERROR_HTTP_RESPONSE_BODY_NOT_PARSEABLE_AS_JSON))
    else none
  | .responseEndCrash =>
    if c.responseStarted ∧ ¬c.responseEnded ∧ ¬c.transportDestroyed then
      some { c with responseEnded := true, responseTimerArmed := false }
    else none
  | .deferredSettleRuns =>
    if c.settleScheduled then some c.runDeferredSettle else none

/-- A freshly constructed instance in state CREATED, before makeRequest. -/
def initialClient (origin : String) (timeout : Int) : Client :=
  { clientState := .CREATED
    origin := origin
    clientTimeout := timeout
    requestPromise := none
    cancelPromise := none
    teardownInitiated := false
    requestTimerArmed := false
    responseTimerArmed := false
    teardownCause := none
    settleScheduled := false
    requestSettled := none
    cancelFutureResolved := false
    httpResponse := none
    transportDestroyed := false
    socketSeen := false
    requestFinished := false
    responseStarted := false
    responseEnded := false }

/-- The states an instance can reach from construction by serialized events. -/
inductive Reachable : Client → Prop where
  | init (origin : String) (timeout : Int) : Reachable (initialClient origin timeout)
  | next (e : Event) (c c' : Client) : Reachable c → step e c = some c' → Reachable c'

/-- The states reachable from a given state by serialized events. -/
inductive ReachableFrom (c : Client) : Client → Prop where
  | refl : ReachableFrom c c
  | next (e : Event) (c' c'' : Client) :
      ReachableFrom c c' → step e c' = some c'' → ReachableFrom c c''

/-- The inductive invariant of the serialized event model: the two timers are
never both armed, the response timer is armed only after the finish
milestone, the transport milestones are ordered, a recorded teardown cause
and the one-shot teardown flag coincide, the deferred settling block is
queued only after teardown ran, a settled perform-future means teardown ran
and its deferred block already drained, the terminal state agrees with the
settlement (FULFILLED on resolution, CANCELLED exactly on rejection with the
cancellation error, FAILED on any other rejection), and the cancel-future is
resolved only under a recorded cancellation cause. -/
def ClientInv (c : Client) : Prop :=
  (c.requestTimerArmed = false ∨ c.responseTimerArmed = false) ∧
  (c.responseTimerArmed = true → c.requestFinished = true) ∧
  (c.requestFinished = true → c.socketSeen = true) ∧
  (c.responseStarted = true → c.socketSeen = true) ∧
  (c.responseEnded = true → c.responseStarted = true) ∧
  (c.teardownCause = none ↔ c.teardownInitiated = false) ∧
  (c.settleScheduled = true → c.teardownInitiated = true) ∧
  (c.requestSettled.isSome = true → c.teardownInitiated = true ∧ c.settleScheduled = false) ∧
  (∀ r, c.requestSettled = some (.resolvedWith r) → c.clientState = .FULFILLED) ∧
  (∀ e, c.requestSettled = some (.rejectedWith e) →
    c.clientState = (if isRequestCancelledError e then .CANCELLED else .FAILED)) ∧
  (c.cancelFutureResolved = true →
    ∃ o, c.teardownCause = some (some (.ERROR_HTTP_REQUEST_CANCELLED o)))

/-- A URL parser that fails on every string (the URL-object construction path
does not consult it). -/
def parseURLNone : String → Option URLRec := fun _ => none

/-- Constructor options selecting only the HEAD method, all other options
left to their defaults. -/
def headOnlyOptions : CtorOptions :=
  ⟨JSVal.string "HEAD", JSVal.undefined, JSVal.undefined, JSVal.undefined, JSVal.undefined,
    JSVal.undefined⟩

/-- A content-type parse model recognizing exactly the application/json
media type with no parameters. -/
def parseContentTypeJSON : String → Option ContentTypeObj := fun s =>
  if s = "application/json" then some ⟨some "application/json", some []⟩ else none

/-- A Buffer.prototype.toString model mapping the bytes of the text 42 to
the text 42 (the only decode the counterexample needs). -/
def bufferToStringNum : List Nat → String → String := fun b _ =>
  if b = [52, 50] then "42" else ""

/-- A JSON.parse model mapping the text 42 to the number 42 (what
JSON.parse returns on a scalar document). -/
def jsonParseNum : String → Option JSVal := fun s =>
  if s = "42" then some (JSVal.numberInt 42) else none

/-- A concrete bodyless 200 response value used by the concrete traces. -/
def witResponse : HTTPResponseRec := ⟨JSVal.strMap [], 200, "OK", none⟩

/-- A concrete instance right after makeRequest: state REQUESTING with the
perform-future created. -/
def witRequesting : Client :=
  { initialClient "http://example.com" 50 with
    clientState := ClientState.REQUESTING
    requestPromise := some 1 }

/-- The concrete instance after the socket event: request timer armed. -/
def witSocket : Client :=
  { witRequesting with socketSeen := true, requestTimerArmed := true }

/-- The concrete instance after the finish event: request timer cleared and
response timer armed. -/
def witAfterFinish : Client :=
  { witSocket with
    requestFinished := true
    requestTimerArmed := false
    responseTimerArmed := true }

/-- The concrete instance after the response head arrived. -/
def witHead : Client := { witAfterFinish with responseStarted := true }

/-- The concrete instance after a successful stream end and the synchronous
part of teardown. -/
def witEnded : Client :=
  { witHead with
    responseEnded := true
    responseTimerArmed := false
    httpResponse := some witResponse
    teardownInitiated := true
    requestTimerArmed := false
    teardownCause := some none
    settleScheduled := true }

/-- The concrete instance after the deferred settling block ran: FULFILLED
with the perform-future resolved. -/
def witSettled : Client :=
  { witEnded with
    settleScheduled := false
    clientState := ClientState.FULFILLED
    requestSettled := some (Settlement.resolvedWith witResponse) }

/-- The concrete instance after a transport error tore the client down while
still in REQUESTING: the recorded cause is the mapped system error. -/
def witErrored : Client :=
  { witSocket with
    teardownInitiated := true
    requestTimerArmed := false
    responseTimerArmed := false
    transportDestroyed := true
    teardownCause := some (some (HTTPClientError.ERROR_SYSTEM_MAPPED "ECONNRESET"))
    settleScheduled := true }

/-- The errored instance after a late cancelRequest call. -/
def witErroredCancelling : Client :=
  { witErrored with clientState := ClientState.CANCELLING, cancelPromise := some 2 }

/-- The concrete instance after the response timer fired on witAfterFinish. -/
def witRespTimedOut : Client :=
  { witAfterFinish with
    responseTimerArmed := false
    teardownInitiated := true
    requestTimerArmed := false
    transportDestroyed := true
    teardownCause :=
      some (some (HTTPClientError.ERROR_HTTP_RESPONSE_TIMED_OUT "http://example.com" 50))
    settleScheduled := true }

/-- Constructor options with a string body and an encoding outside the
closed set. -/
def badEncodingOptions : CtorOptions :=
  ⟨JSVal.undefined, JSVal.undefined, JSVal.undefined, JSVal.string "hello",
    JSVal.string "bogus", JSVal.undefined⟩

/-- A platform text decoder that treats every encoding as UTF-8; the claim
holds for every decoder, and the witness instantiates this one. -/
def utf8OnlyCodec : String → Option String → List Nat := fun s _ => utf8Bytes s

/-- An object graph whose single node refers to itself: the minimal cyclic
value JSON.stringify rejects. -/
def selfCycleGraph : ObjGraph := ⟨[[("a", JField.jfRef 0)]], 0⟩

/-- Constructor options selecting an unrecognized method. -/
def brewOptions : CtorOptions :=
  ⟨JSVal.string "BREW", JSVal.undefined, JSVal.undefined, JSVal.undefined, JSVal.undefined,
    JSVal.undefined⟩

/-- Elimination for a guarded step equation: if a conditional step produced a
state, the guard held and the state is the guarded one. -/
theorem guardSome {p : Prop} [Decidable p] {a c' : Client}
    (h : (if p then some a else none) = some c') : p ∧ a = c' := by
  by_cases hp : p
  · rw [if_pos hp] at h
    exact ⟨hp, Option.some.inj h⟩
  · rw [if_neg hp] at h
    exact absurd h (by simp)

/-- Teardown is a no-op once the one-shot flag is set. -/
theorem teardown_of_torn (d : Client) (err : Option HTTPClientError)
    (h : d.teardownInitiated = true) : d.teardown err = d := by
  simp [Client.teardown, h]

/-- The first teardown call sets the one-shot flag, clears both timers,
destroys the transport exactly on an error cause, records the cause and
queues the deferred settling block. -/
theorem teardown_of_not_torn (d : Client) (err : Option HTTPClientError)
    (h : d.teardownInitiated = false) :
    d.teardown err =
      { d with
        teardownInitiated := true
        requestTimerArmed := false
        responseTimerArmed := false
        transportDestroyed := d.transportDestroyed || err.isSome
        teardownCause := some err
        settleScheduled := true } := by
  simp [Client.teardown, h]

/-- An error tests as ERROR_HTTP_REQUEST_CANCELLED exactly when it is one. -/
theorem isRequestCancelledError_iff (e : HTTPClientError) :
    isRequestCancelledError e = true ↔ ∃ o, e = .ERROR_HTTP_REQUEST_CANCELLED o := by
  cases e <;> simp [isRequestCancelledError]

/-- A freshly constructed instance satisfies the invariant. -/
theorem inv_initial (origin : String) (timeout : Int) : ClientInv (initialClient origin timeout) := by
  simp [ClientInv, initialClient]

/-- If the one-shot teardown flag is still clear, the perform-future cannot
have settled yet. -/
theorem settled_none_of_not_torn (c : Client) (hInv : ClientInv c)
    (ht : c.teardownInitiated = false) : c.requestSettled = none := by
  obtain ⟨-, -, -, -, -, -, -, h8, -, -, -⟩ := hInv
  cases hs : c.requestSettled with
  | none => rfl
  | some st =>
    have := h8 (by simp [hs])
    rw [this.1] at ht
    exact absurd ht (by simp)

/-- In a non-terminal state the perform-future has not settled. -/
theorem settled_none_of_nonterminal (c : Client) (hInv : ClientInv c)
    (h1 : c.clientState ≠ .FULFILLED) (h2 : c.clientState ≠ .CANCELLED)
    (h3 : c.clientState ≠ .FAILED) : c.requestSettled = none := by
  obtain ⟨-, -, -, -, -, -, -, -, h9, h10, -⟩ := hInv
  cases hs : c.requestSettled with
  | none => rfl
  | some st =>
    cases st with
    | resolvedWith r => exact absurd (h9 r hs) h1
    | rejectedWith e =>
      have := h10 e hs
      by_cases hc : isRequestCancelledError e = true
      · rw [if_pos hc] at this
        exact absurd this h2
      · rw [if_neg hc] at this
        exact absurd this h3

/-- Every serialized event preserves the client invariant. -/
theorem inv_step (e : Event) (c c' : Client) (hInv : ClientInv c) (h : step e c = some c') :
    ClientInv c' := by
  obtain ⟨h1, h2, h3, h4, h5, h6, h7, h8, h9, h10, h11⟩ := hInv
  cases e with
  | makeRequestCall =>
    simp only [step] at h
    by_cases hs : c.clientState = ClientState.REQUESTING
    · simp [Client.makeRequest, hs] at h
      subst h
      exact ⟨h1, h2, h3, h4, h5, h6, h7, h8, h9, h10, h11⟩
    · by_cases hcr : c.clientState = ClientState.CREATED
      · simp [Client.makeRequest, hs, hcr] at h
        subst h
        refine ⟨h1, h2, h3, h4, h5, h6, h7, h8, ?_, ?_, h11⟩
        · intro r hr
          have hst := h9 r hr
          rw [hcr] at hst
          simp at hst
        · intro e2 he2
          have hst := h10 e2 he2
          rw [hcr] at hst
          split at hst <;> simp at hst
      · simp [Client.makeRequest, hs, hcr] at h
  | cancelRequestCall =>
    simp only [step] at h
    by_cases hcl : c.clientState = ClientState.CANCELLING
    · simp [Client.cancelRequest, hcl] at h
      subst h
      exact ⟨h1, h2, h3, h4, h5, h6, h7, h8, h9, h10, h11⟩
    · by_cases hrq : c.clientState = ClientState.REQUESTING
      · simp [Client.cancelRequest, hcl, hrq] at h
        by_cases ht : c.teardownInitiated = true
        · rw [teardown_of_torn
            { c with clientState := ClientState.CANCELLING, cancelPromise := some 2 }
            (some (.ERROR_HTTP_REQUEST_CANCELLED c.origin)) ht] at h
          subst h
          refine ⟨h1, h2, h3, h4, h5, h6, h7, h8, ?_, ?_, h11⟩
          · intro r hr
            have hst := h9 r hr
            rw [hrq] at hst
            simp at hst
          · intro e2 he2
            have hst := h10 e2 he2
            rw [hrq] at hst
            split at hst <;> simp at hst
        · have ht' : c.teardownInitiated = false := by simpa using ht
          have hset := settled_none_of_not_torn c
            ⟨h1, h2, h3, h4, h5, h6, h7, h8, h9, h10, h11⟩ ht'
          rw [teardown_of_not_torn
            { c with clientState := ClientState.CANCELLING, cancelPromise := some 2 }
            (some (.ERROR_HTTP_REQUEST_CANCELLED c.origin)) ht'] at h
          subst h
          refine ⟨Or.inl rfl, by simp, h3, h4, h5, by simp, by simp, by simp [hset], ?_, ?_, ?_⟩
          · intro r hr
            simp [hset] at hr
          · intro e2 he2
            simp [hset] at he2
          · intro _
            exact ⟨c.origin, rfl⟩
      · simp [Client.cancelRequest, hcl, hrq] at h
  | socketReady =>
    simp only [step] at h
    obtain ⟨⟨hp, hns, hnd⟩, rfl⟩ := guardSome h
    have hrt : c.responseTimerArmed = false := by
      cases hb : c.responseTimerArmed
      · rfl
      · exact absurd (h3 (h2 hb)) hns
    exact ⟨Or.inr hrt, h2, fun _ => rfl, fun _ => rfl, h5, h6, h7, h8, h9, h10, h11⟩
  | socketReadyConversionFailed err0 =>
    simp only [step] at h
    obtain ⟨⟨hp, hns, hnd⟩, heq⟩ := guardSome h
    by_cases ht : c.teardownInitiated = true
    · rw [teardown_of_torn { c with socketSeen := true, requestTimerArmed := true }
        (some err0) ht] at heq
      subst heq
      have hrt : c.responseTimerArmed = false := by
        cases hb : c.responseTimerArmed
        · rfl
        · exact absurd (h3 (h2 hb)) hns
      exact ⟨Or.inr hrt, h2, fun _ => rfl, fun _ => rfl, h5, h6, h7, h8, h9, h10, h11⟩
    · have ht' : c.teardownInitiated = false := by simpa using ht
      have hset := settled_none_of_not_torn c
        ⟨h1, h2, h3, h4, h5, h6, h7, h8, h9, h10, h11⟩ ht'
      rw [teardown_of_not_torn { c with socketSeen := true, requestTimerArmed := true }
        (some err0) ht'] at heq
      subst heq
      refine ⟨Or.inl rfl, by simp, fun _ => rfl, fun _ => rfl, h5, by simp, by simp,
        by simp [hset], ?_, ?_, ?_⟩
      · intro r hr
        simp [hset] at hr
      · intro e2 he2
        simp [hset] at he2
      · intro hh
        obtain ⟨o, ho⟩ := h11 hh
        rw [h6.mpr ht'] at ho
        simp at ho
  | requestFinish =>
    simp only [step] at h
    obtain ⟨⟨hsk, hnf, hnd⟩, rfl⟩ := guardSome h
    exact ⟨Or.inl rfl, fun _ => rfl, fun _ => hsk, h4, h5, h6, h7, h8, h9, h10, h11⟩
  | requestTimerFired =>
    simp only [step] at h
    obtain ⟨hrt, heq⟩ := guardSome h
    by_cases ht : c.teardownInitiated = true
    · rw [teardown_of_torn { c with requestTimerArmed := false }
        (some (.ERROR_HTTP_REQUEST_TIMED_OUT c.origin c.clientTimeout)) ht] at heq
      subst heq
      exact ⟨Or.inl rfl, h2, h3, h4, h5, h6, h7, h8, h9, h10, h11⟩
    · have ht' : c.teardownInitiated = false := by simpa using ht
      have hset := settled_none_of_not_torn c
        ⟨h1, h2, h3, h4, h5, h6, h7, h8, h9, h10, h11⟩ ht'
      rw [teardown_of_not_torn { c with requestTimerArmed := false }
        (some (.ERROR_HTTP_REQUEST_TIMED_OUT c.origin c.clientTimeout)) ht'] at heq
      subst heq
      refine ⟨Or.inl rfl, by simp, h3, h4, h5, by simp, by simp, by simp [hset], ?_, ?_, ?_⟩
      · intro r hr
        simp [hset] at hr
      · intro e2 he2
        simp [hset] at he2
      · intro hh
        obtain ⟨o, ho⟩ := h11 hh
        rw [h6.mpr ht'] at ho
        simp at ho
  | responseTimerFired =>
    simp only [step] at h
    obtain ⟨hrt, heq⟩ := guardSome h
    by_cases ht : c.teardownInitiated = true
    · rw [teardown_of_torn { c with responseTimerArmed := false }
        (some (.ERROR_HTTP_RESPONSE_TIMED_OUT c.origin c.clientTimeout)) ht] at heq
      subst heq
      exact ⟨Or.inr rfl, by simp, h3, h4, h5, h6, h7, h8, h9, h10, h11⟩
    · have ht' : c.teardownInitiated = false := by simpa using ht
      have hset := settled_none_of_not_torn c
        ⟨h1, h2, h3, h4, h5, h6, h7, h8, h9, h10, h11⟩ ht'
      rw [teardown_of_not_torn { c with responseTimerArmed := false }
        (some (.ERROR_HTTP_RESPONSE_TIMED_OUT c.origin c.clientTimeout)) ht'] at heq
      subst heq
      refine ⟨Or.inl rfl, by simp, h3, h4, h5, by simp, by simp, by simp [hset], ?_, ?_, ?_⟩
      · intro r hr
        simp [hset] at hr
      · intro e2 he2
        simp [hset] at he2
      · intro hh
        obtain ⟨o, ho⟩ := h11 hh
        rw [h6.mpr ht'] at ho
        simp at ho
  | requestErrorEvent code =>
    simp only [step] at h
    obtain ⟨hp, heq⟩ := guardSome h
    by_cases ht : c.teardownInitiated = true
    · rw [teardown_of_torn c (some (convertSystemErrorToStandardError code)) ht] at heq
      subst heq
      exact ⟨h1, h2, h3, h4, h5, h6, h7, h8, h9, h10, h11⟩
    · have ht' : c.teardownInitiated = false := by simpa using ht
      have hset := settled_none_of_not_torn c
        ⟨h1, h2, h3, h4, h5, h6, h7, h8, h9, h10, h11⟩ ht'
      rw [teardown_of_not_torn c (some (convertSystemErrorToStandardError code)) ht'] at heq
      subst heq
      refine ⟨Or.inl rfl, by simp, h3, h4, h5, by simp, by simp, by simp [hset], ?_, ?_, ?_⟩
      · intro r hr
        simp [hset] at hr
      · intro e2 he2
        simp [hset] at he2
      · intro hh
        obtain ⟨o, ho⟩ := h11 hh
        rw [h6.mpr ht'] at ho
        simp at ho
  | responseHeadReceived =>
    simp only [step] at h
    obtain ⟨⟨hsk, hns, hnd⟩, rfl⟩ := guardSome h
    exact ⟨h1, h2, h3, fun _ => hsk, fun _ => rfl, h6, h7, h8, h9, h10, h11⟩
  | responseDataChunk =>
    simp only [step] at h
    obtain ⟨hg, rfl⟩ := guardSome h
    exact ⟨h1, h2, h3, h4, h5, h6, h7, h8, h9, h10, h11⟩
  | responseEndOk r =>
    simp only [step] at h
    obtain ⟨⟨hrs, hne, hnd⟩, heq⟩ := guardSome h
    by_cases ht : c.teardownInitiated = true
    · rw [teardown_of_torn
        { c with responseEnded := true, responseTimerArmed := false, httpResponse := some r }
        none ht] at heq
      subst heq
      exact ⟨Or.inr rfl, by simp, h3, h4, fun _ => hrs, h6, h7, h8, h9, h10, h11⟩
    · have ht' : c.teardownInitiated = false := by simpa using ht
      have hset := settled_none_of_not_torn c
        ⟨h1, h2, h3, h4, h5, h6, h7, h8, h9, h10, h11⟩ ht'
      rw [teardown_of_not_torn
        { c with responseEnded := true, responseTimerArmed := false, httpResponse := some r }
        none ht'] at heq
      subst heq
      refine ⟨Or.inl rfl, by simp, h3, h4, fun _ => hrs, by simp, by simp, by simp [hset],
        ?_, ?_, ?_⟩
      · intro r2 hr2
        simp [hset] at hr2
      · intro e2 he2
        simp [hset] at he2
      · intro hh
        obtain ⟨o, ho⟩ := h11 hh
        rw [h6.mpr ht'] at ho
        simp at ho
  | responseEndJsonFailure =>
    simp only [step] at h
    obtain ⟨⟨hrs, hne, hnd⟩, heq⟩ := guardSome h
    by_cases ht : c.teardownInitiated = true
    · rw [teardown_of_torn { c with responseEnded := true, responseTimerArmed := false }
        (some .ERROR_HTTP_RESPONSE_BODY_NOT_PARSEABLE_AS_JSON) ht] at heq
      subst heq
      exact ⟨Or.inr rfl, by simp, h3, h4, fun _ => hrs, h6, h7, h8, h9, h10, h11⟩
    · have ht' : c.teardownInitiated = false := by simpa using ht
      have hset := settled_none_of_not_torn c
        ⟨h1, h2, h3, h4, h5, h6, h7, h8, h9, h10, h11⟩ ht'
      rw [teardown_of_not_torn { c with responseEnded := true, responseTimerArmed := false }
        (some .ERROR_HTTP_RESPONSE_BODY_NOT_PARSEABLE_AS_JSON) ht'] at heq
      subst heq
      refine ⟨Or.inl rfl, by simp, h3, h4, fun _ => hrs, by simp, by simp, by simp [hset],
        ?_, ?_, ?_⟩
      · intro r2 hr2
        simp [hset] at hr2
      · intro e2 he2
        simp [hset] at he2
      · intro hh
        obtain ⟨o, ho⟩ := h11 hh
        rw [h6.mpr ht'] at ho
        simp at ho
  | responseEndCrash =>
    simp only [step] at h
    obtain ⟨⟨hrs, hne, hnd⟩, rfl⟩ := guardSome h
    exact ⟨Or.inr rfl, by simp, h3, h4, fun _ => hrs, h6, h7, h8, h9, h10, h11⟩
  | deferredSettleRuns =>
    simp only [step] at h
    obtain ⟨hsch, heq⟩ := guardSome h
    have htorn := h7 hsch
    cases hc : c.teardownCause with
    | none =>
      have hfalse := h6.mp hc
      rw [htorn] at hfalse
      simp at hfalse
    | some x =>
      cases x with
      | none =>
        cases hr : c.httpResponse with
        | some r =>
          simp [Client.runDeferredSettle, hc, hr] at heq
          subst heq
          refine ⟨h1, h2, h3, h4, h5, by simp [htorn], by simp, fun _ => ⟨htorn, rfl⟩, ?_, ?_, ?_⟩
          · intro r2 _
            rfl
          · intro e2 he2
            simp at he2
          · intro hh
            obtain ⟨o, ho⟩ := h11 hh
            rw [hc] at ho
            simp at ho
        | none =>
          simp [Client.runDeferredSettle, hc, hr] at heq
          subst heq
          refine ⟨h1, h2, h3, h4, h5, by simp [htorn], by simp, fun _ => ⟨htorn, rfl⟩, ?_, ?_, ?_⟩
          · intro r2 hr2
            simp at hr2
          · intro e2 he2
            simp at he2
            subst he2
            simp [isRequestCancelledError]
          · intro hh
            obtain ⟨o, ho⟩ := h11 hh
            rw [hc] at ho
            simp at ho
      | some err0 =>
        by_cases hcanc : isRequestCancelledError err0 = true
        · simp [Client.runDeferredSettle, hc, hcanc] at heq
          subst heq
          refine ⟨h1, h2, h3, h4, h5, by simp [htorn], by simp, fun _ => ⟨htorn, rfl⟩, ?_, ?_, ?_⟩
          · intro r2 hr2
            simp at hr2
          · intro e2 he2
            simp at he2
            subst he2
            rw [if_pos hcanc]
          · intro _
            obtain ⟨o, ho⟩ := (isRequestCancelledError_iff err0).mp hcanc
            exact ⟨o, by simp [ho]⟩
        · simp [Client.runDeferredSettle, hc, hcanc] at heq
          subst heq
          refine ⟨h1, h2, h3, h4, h5, by simp [htorn], by simp, fun _ => ⟨htorn, rfl⟩, ?_, ?_, ?_⟩
          · intro r2 hr2
            simp at hr2
          · intro e2 he2
            simp at he2
            subst he2
            rw [if_neg hcanc]
          · intro hh
            obtain ⟨o, ho⟩ := h11 hh
            rw [hc] at ho
            simp at ho
            rw [ho] at hcanc
            simp [isRequestCancelledError] at hcanc

/-- Every reachable client state satisfies the invariant. -/
theorem inv_reachable (c : Client) (h : Reachable c) : ClientInv c := by
  induction h with
  | init origin timeout => exact inv_initial origin timeout
  | next e d d' _ hstep ih => exact inv_step e d d' ih hstep

/-- A step either leaves the recorded teardown cause unchanged or happens
while the one-shot teardown flag is still clear. -/
theorem step_cause (e : Event) (c c' : Client) (h : step e c = some c') :
    c'.teardownCause = c.teardownCause ∨ c.teardownInitiated = false := by
  cases e with
  | makeRequestCall =>
    simp only [step] at h
    by_cases hs : c.clientState = ClientState.REQUESTING
    · simp [Client.makeRequest, hs] at h
      subst h
      exact Or.inl rfl
    · by_cases hcr : c.clientState = ClientState.CREATED
      · simp [Client.makeRequest, hs, hcr] at h
        subst h
        exact Or.inl rfl
      · simp [Client.makeRequest, hs, hcr] at h
  | cancelRequestCall =>
    simp only [step] at h
    by_cases hcl : c.clientState = ClientState.CANCELLING
    · simp [Client.cancelRequest, hcl] at h
      subst h
      exact Or.inl rfl
    · by_cases hrq : c.clientState = ClientState.REQUESTING
      · simp [Client.cancelRequest, hcl, hrq] at h
        by_cases ht : c.teardownInitiated = true
        · rw [teardown_of_torn
            { c with clientState := ClientState.CANCELLING, cancelPromise := some 2 }
            (some (.ERROR_HTTP_REQUEST_CANCELLED c.origin)) ht] at h
          subst h
          exact Or.inl rfl
        · exact Or.inr (by simpa using ht)
      · simp [Client.cancelRequest, hcl, hrq] at h
  | socketReady =>
    simp only [step] at h
    obtain ⟨-, rfl⟩ := guardSome h
    exact Or.inl rfl
  | socketReadyConversionFailed err0 =>
    simp only [step] at h
    obtain ⟨-, heq⟩ := guardSome h
    by_cases ht : c.teardownInitiated = true
    · rw [teardown_of_torn { c with socketSeen := true, requestTimerArmed := true }
        (some err0) ht] at heq
      subst heq
      exact Or.inl rfl
    · exact Or.inr (by simpa using ht)
  | requestFinish =>
    simp only [step] at h
    obtain ⟨-, rfl⟩ := guardSome h
    exact Or.inl rfl
  | requestTimerFired =>
    simp only [step] at h
    obtain ⟨-, heq⟩ := guardSome h
    by_cases ht : c.teardownInitiated = true
    · rw [teardown_of_torn { c with requestTimerArmed := false }
        (some (.ERROR_HTTP_REQUEST_TIMED_OUT c.origin c.clientTimeout)) ht] at heq
      subst heq
      exact Or.inl rfl
    · exact Or.inr (by simpa using ht)
  | responseTimerFired =>
    simp only [step] at h
    obtain ⟨-, heq⟩ := guardSome h
    by_cases ht : c.teardownInitiated = true
    · rw [teardown_of_torn { c with responseTimerArmed := false }
        (some (.ERROR_HTTP_RESPONSE_TIMED_OUT c.origin c.clientTimeout)) ht] at heq
      subst heq
      exact Or.inl rfl
    · exact Or.inr (by simpa using ht)
  | requestErrorEvent code =>
    simp only [step] at h
    obtain ⟨-, heq⟩ := guardSome h
    by_cases ht : c.teardownInitiated = true
    · rw [teardown_of_torn c (some (convertSystemErrorToStandardError code)) ht] at heq
      subst heq
      exact Or.inl rfl
    · exact Or.inr (by simpa using ht)
  | responseHeadReceived =>
    simp only [step] at h
    obtain ⟨-, rfl⟩ := guardSome h
    exact Or.inl rfl
  | responseDataChunk =>
    simp only [step] at h
    obtain ⟨-, rfl⟩ := guardSome h
    exact Or.inl rfl
  | responseEndOk r =>
    simp only [step] at h
    obtain ⟨-, heq⟩ := guardSome h
    by_cases ht : c.teardownInitiated = true
    · rw [teardown_of_torn
        { c with responseEnded := true, responseTimerArmed := false, httpResponse := some r }
        none ht] at heq
      subst heq
      exact Or.inl rfl
    · exact Or.inr (by simpa using ht)
  | responseEndJsonFailure =>
    simp only [step] at h
    obtain ⟨-, heq⟩ := guardSome h
    by_cases ht : c.teardownInitiated = true
    · rw [teardown_of_torn { c with responseEnded := true, responseTimerArmed := false }
        (some .ERROR_HTTP_RESPONSE_BODY_NOT_PARSEABLE_AS_JSON) ht] at heq
      subst heq
      exact Or.inl rfl
    · exact Or.inr (by simpa using ht)
  | responseEndCrash =>
    simp only [step] at h
    obtain ⟨-, rfl⟩ := guardSome h
    exact Or.inl rfl
  | deferredSettleRuns =>
    simp only [step] at h
    obtain ⟨-, heq⟩ := guardSome h
    cases hc : c.teardownCause with
    | none =>
      simp [Client.runDeferredSettle, hc] at heq
      subst heq
      exact Or.inl hc
    | some x =>
      cases x with
      | none =>
        cases hr : c.httpResponse with
        | some r =>
          simp [Client.runDeferredSettle, hc, hr] at heq
          subst heq
          exact Or.inl rfl
        | none =>
          simp [Client.runDeferredSettle, hc, hr] at heq
          subst heq
          exact Or.inl rfl
      | some err0 =>
        by_cases hcanc : isRequestCancelledError err0 = true
        · simp [Client.runDeferredSettle, hc, hcanc] at heq
          subst heq
          exact Or.inl rfl
        · simp [Client.runDeferredSettle, hc, hcanc] at heq
          subst heq
          exact Or.inl rfl

/-- A recorded teardown cause means the one-shot flag is set. -/
theorem torn_of_cause_some (c : Client) (x : Option (Option HTTPClientError))
    (hInv : ClientInv c) (hc : c.teardownCause = x) (hx : x ≠ none) :
    c.teardownInitiated = true := by
  obtain ⟨-, -, -, -, -, h6, -, -, -, -, -⟩ := hInv
  cases ht : c.teardownInitiated with
  | true => rfl
  | false =>
    rw [h6.mpr ht] at hc
    exact absurd hc.symm hx

/-- Once a teardown cause is recorded, every later reachable state keeps the
same cause and the invariant. -/
theorem reachableFrom_inv_cause (c c' : Client) (x : Option HTTPClientError)
    (hInv : ClientInv c) (hc : c.teardownCause = some x) (h : ReachableFrom c c') :
    ClientInv c' ∧ c'.teardownCause = some x := by
  induction h with
  | refl => exact ⟨hInv, hc⟩
  | next e d d' _ hstep ih =>
    obtain ⟨ihInv, ihc⟩ := ih
    refine ⟨inv_step e d d' ihInv hstep, ?_⟩
    rcases step_cause e d d' hstep with heq | hnt
    · rw [heq, ihc]
    · rw [torn_of_cause_some d (some x) ihInv ihc (by simp)] at hnt
      simp at hnt

/-- C1: for every settled perform-future of an instance, the terminal state
is FULFILLED exactly when the future resolved with a response value,
CANCELLED exactly when it rejected with an ERROR_HTTP_REQUEST_CANCELLED
error, and FAILED in every other settled case. -/
theorem claim_C1_settlement_matches_terminal_state (c : Client) (st : Settlement)
    (hreach : Reachable c) (hset : c.requestSettled = some st) :
    (c.clientState = ClientState.FULFILLED ↔ ∃ r, st = Settlement.resolvedWith r) ∧
    (c.clientState = ClientState.CANCELLED ↔
      ∃ o, st = Settlement.rejectedWith (HTTPClientError.ERROR_HTTP_REQUEST_CANCELLED o)) ∧
    ((∀ r, st ≠ Settlement.resolvedWith r) →
      (∀ o, st ≠ Settlement.rejectedWith (HTTPClientError.ERROR_HTTP_REQUEST_CANCELLED o)) →
      c.clientState = ClientState.FAILED) := by
  have hInv := inv_reachable c hreach
  obtain ⟨-, -, -, -, -, -, -, -, h9, h10, -⟩ := hInv
  cases st with
  | resolvedWith r =>
    have hF := h9 r hset
    refine ⟨⟨fun _ => ⟨r, rfl⟩, fun _ => hF⟩, ⟨?_, ?_⟩, ?_⟩
    · intro hcc
      rw [hF] at hcc
      simp at hcc
    · rintro ⟨o, ho⟩
      simp at ho
    · intro hnr _
      exact absurd rfl (hnr r)
  | rejectedWith e2 =>
    have hE := h10 e2 hset
    by_cases hcanc : isRequestCancelledError e2 = true
    · rw [if_pos hcanc] at hE
      obtain ⟨o, ho⟩ := (isRequestCancelledError_iff e2).mp hcanc
      refine ⟨⟨?_, ?_⟩, ⟨fun _ => ⟨o, by rw [ho]⟩, fun _ => hE⟩, ?_⟩
      · intro hf
        rw [hE] at hf
        simp at hf
      · rintro ⟨r, hr⟩
        simp at hr
      · intro _ hnc
        exact absurd (by rw [ho]) (hnc o)
    · rw [if_neg hcanc] at hE
      refine ⟨⟨?_, ?_⟩, ⟨?_, ?_⟩, fun _ _ => hE⟩
      · intro hf
        rw [hE] at hf
        simp at hf
      · rintro ⟨r, hr⟩
        simp at hr
      · intro hcc
        rw [hE] at hcc
        simp at hcc
      · rintro ⟨o, ho⟩
        simp at ho
        rw [ho] at hcanc
        simp [isRequestCancelledError] at hcanc

/-- C7: in every reachable state at most one of the two timers is armed; a
first teardown call leaves both timers unarmed; the socket handler arms the
request timer; and the finish handler atomically clears the request timer
while arming the response timer. -/
theorem claim_C7_timer_exclusivity (c : Client) (hreach : Reachable c) :
    (c.requestTimerArmed = false ∨ c.responseTimerArmed = false) ∧
    (∀ err, c.teardownInitiated = false →
      (c.teardown err).requestTimerArmed = false ∧ (c.teardown err).responseTimerArmed = false) ∧
    (∀ c2, step Event.socketReady c = some c2 → c2.requestTimerArmed = true) ∧
    (∀ c2, step Event.requestFinish c = some c2 →
      c2.requestTimerArmed = false ∧ c2.responseTimerArmed = true) := by
  have hInv := inv_reachable c hreach
  obtain ⟨h1, -, -, -, -, -, -, -, -, -, -⟩ := hInv
  refine ⟨h1, ?_, ?_, ?_⟩
  · intro err ht
    rw [teardown_of_not_torn c err ht]
    exact ⟨rfl, rfl⟩
  · intro c2 h
    simp only [step] at h
    obtain ⟨-, heq⟩ := guardSome h
    rw [← heq]
  · intro c2 h
    simp only [step] at h
    obtain ⟨-, heq⟩ := guardSome h
    rw [← heq]
    exact ⟨rfl, rfl⟩

/-- C4: when the response-phase timer (armed by the finish handler, which
only runs after the request head and body are fully written) fires on a
not-yet-torn-down instance, the recorded teardown cause is
ERROR_HTTP_RESPONSE_TIMED_OUT carrying the request origin and the configured
timeout, and never ERROR_HTTP_REQUEST_TIMED_OUT. -/
theorem claim_C4_response_timer_fires_response_timeout (c c2 : Client)
    (hreach : Reachable c) (ht : c.teardownInitiated = false)
    (h : step Event.responseTimerFired c = some c2) :
    c.requestFinished = true ∧
    c2.teardownCause =
      some (some (HTTPClientError.ERROR_HTTP_RESPONSE_TIMED_OUT c.origin c.clientTimeout)) ∧
    (∀ o t, c2.teardownCause ≠
      some (some (HTTPClientError.ERROR_HTTP_REQUEST_TIMED_OUT o t))) := by
  have hInv := inv_reachable c hreach
  obtain ⟨-, h2, -, -, -, -, -, -, -, -, -⟩ := hInv
  simp only [step] at h
  obtain ⟨hrt, heq⟩ := guardSome h
  rw [teardown_of_not_torn { c with responseTimerArmed := false }
    (some (.ERROR_HTTP_RESPONSE_TIMED_OUT c.origin c.clientTimeout)) ht] at heq
  subst heq
  refine ⟨h2 hrt, rfl, ?_⟩
  intro o t hcontra
  simp at hcontra

/-- The client after cancelRequest's synchronous state change, before the
emitted teardown request is considered. -/
theorem inv_cancelling (c : Client) (hInv : ClientInv c)
    (hst : c.clientState = ClientState.REQUESTING) :
    ClientInv { c with clientState := ClientState.CANCELLING, cancelPromise := some 2 } := by
  have hsetnone := settled_none_of_nonterminal c hInv (by rw [hst]; simp) (by rw [hst]; simp)
    (by rw [hst]; simp)
  obtain ⟨h1, h2, h3, h4, h5, h6, h7, h8, h9, h10, h11⟩ := hInv
  refine ⟨h1, h2, h3, h4, h5, h6, h7, h8, ?_, ?_, h11⟩
  · intro r hr
    have hr' : c.requestSettled = some (Settlement.resolvedWith r) := hr
    rw [hsetnone] at hr'
    simp at hr'
  · intro e2 he2
    have he2' : c.requestSettled = some (Settlement.rejectedWith e2) := he2
    rw [hsetnone] at he2'
    simp at he2'

/-- C10: when teardown was first initiated with a cause that is not an
ERROR_HTTP_REQUEST_CANCELLED (a mapped transport error, a timeout, or the
successful end-of-stream cause), a cancelRequest issued while the state is
still REQUESTING succeeds and moves the state to CANCELLING, but the
cancel-future it returns never resolves: in every state reachable from that
point the cancel acknowledgement has not fired and the recorded cause is
unchanged, while the deferred settling block still drives the instance to
FULFILLED or FAILED. -/
theorem claim_C10_dropped_cancel_future_never_resolves (c : Client)
    (x : Option HTTPClientError) (hreach : Reachable c)
    (hcause : c.teardownCause = some x)
    (hnc : ∀ e0, x = some e0 → isRequestCancelledError e0 = false)
    (hst : c.clientState = ClientState.REQUESTING) :
    c.cancelRequest =
      .ok ({ c with clientState := ClientState.CANCELLING, cancelPromise := some 2 }, some 2) ∧
    (∀ c3, ReachableFrom
        { c with clientState := ClientState.CANCELLING, cancelPromise := some 2 } c3 →
      c3.cancelFutureResolved = false ∧ c3.teardownCause = some x) ∧
    (∀ c3, step Event.deferredSettleRuns
        { c with clientState := ClientState.CANCELLING, cancelPromise := some 2 } = some c3 →
      c3.clientState = ClientState.FULFILLED ∨ c3.clientState = ClientState.FAILED) := by
  have hInv := inv_reachable c hreach
  have htorn := torn_of_cause_some c (some x) hInv hcause (by simp)
  have hInvD := inv_cancelling c hInv hst
  refine ⟨?_, ?_, ?_⟩
  · have hcr : c.cancelRequest =
        .ok ((({ c with clientState := ClientState.CANCELLING, cancelPromise := some 2 } : Client).teardown
          (some (.ERROR_HTTP_REQUEST_CANCELLED c.origin))), some 2) := by
      simp [Client.cancelRequest, hst]
    rw [hcr, teardown_of_torn
      { c with clientState := ClientState.CANCELLING, cancelPromise := some 2 }
      (some (.ERROR_HTTP_REQUEST_CANCELLED c.origin)) htorn]
  · intro c3 hrf
    obtain ⟨hInv3, hc3⟩ := reachableFrom_inv_cause _ c3 x hInvD hcause hrf
    obtain ⟨-, -, -, -, -, -, -, -, -, -, h11c⟩ := hInv3
    cases hres : c3.cancelFutureResolved with
    | false => exact ⟨rfl, hc3⟩
    | true =>
      obtain ⟨o, ho⟩ := h11c hres
      rw [hc3] at ho
      simp at ho
      have hbad := hnc _ ho
      simp [isRequestCancelledError] at hbad
  · intro c3 hstep3
    simp only [step] at hstep3
    obtain ⟨hsch, heq⟩ := guardSome hstep3
    cases x with
    | none =>
      cases hr2 : c.httpResponse with
      | some r =>
        simp [Client.runDeferredSettle, hcause, hr2] at heq
        subst heq
        exact Or.inl rfl
      | none =>
        simp [Client.runDeferredSettle, hcause, hr2] at heq
        subst heq
        exact Or.inr rfl
    | some err0 =>
      have hcf : isRequestCancelledError err0 = false := hnc err0 rfl
      simp [Client.runDeferredSettle, hcause, hcf] at heq
      subst heq
      exact Or.inr rfl

/-- Teardown never changes the client state field (the state only moves in
the deferred settling block). -/
theorem teardown_clientState (d : Client) (err : Option HTTPClientError) :
    (d.teardown err).clientState = d.clientState := by
  unfold Client.teardown
  split <;> rfl

/-- Teardown never changes the cancel-future slot. -/
theorem teardown_cancelPromise (d : Client) (err : Option HTTPClientError) :
    (d.teardown err).cancelPromise = d.cancelPromise := by
  unfold Client.teardown
  split <;> rfl

/-- C2: a makeRequest call in REQUESTING returns the existing perform-future
and leaves the instance unchanged, a second call after any successful call
returns the same future again, and a call in any state other than CREATED or
REQUESTING throws ERROR_HTTP_REQUEST_MAKE_REQUEST_UNAVAILABLE; a
cancelRequest call in CANCELLING returns the existing cancel-future and
leaves the instance unchanged, a second call after any successful call
returns the same future again, and a call in any state other than REQUESTING
or CANCELLING throws ERROR_HTTP_REQUEST_CANCEL_UNAVAILABLE. -/
theorem claim_C2_reentrancy_and_state_guards (c : Client) :
    (c.clientState = ClientState.REQUESTING → c.makeRequest = .ok (c, c.requestPromise)) ∧
    (∀ c2 p, c.makeRequest = .ok (c2, p) → c2.makeRequest = .ok (c2, p)) ∧
    (c.clientState ≠ ClientState.CREATED → c.clientState ≠ ClientState.REQUESTING →
      c.makeRequest = .error .ERROR_HTTP_REQUEST_MAKE_REQUEST_UNAVAILABLE) ∧
    (c.clientState = ClientState.CANCELLING → c.cancelRequest = .ok (c, c.cancelPromise)) ∧
    (∀ c2 p, c.cancelRequest = .ok (c2, p) → c2.cancelRequest = .ok (c2, p)) ∧
    (c.clientState ≠ ClientState.REQUESTING → c.clientState ≠ ClientState.CANCELLING →
      c.cancelRequest = .error .ERROR_HTTP_REQUEST_CANCEL_UNAVAILABLE) := by
  refine ⟨?_, ?_, ?_, ?_, ?_, ?_⟩
  · intro hs
    simp [Client.makeRequest, hs]
  · intro c2 p h
    by_cases hs : c.clientState = ClientState.REQUESTING
    · simp [Client.makeRequest, hs] at h
      obtain ⟨rfl, rfl⟩ := h
      simp [Client.makeRequest, hs]
    · by_cases hcr : c.clientState = ClientState.CREATED
      · simp [Client.makeRequest, hs, hcr] at h
        obtain ⟨rfl, rfl⟩ := h
        simp [Client.makeRequest]
      · simp [Client.makeRequest, hs, hcr] at h
  · intro hcr hs
    simp [Client.makeRequest, hs, hcr]
  · intro hs
    simp [Client.cancelRequest, hs]
  · intro c2 p h
    by_cases hcl : c.clientState = ClientState.CANCELLING
    · simp [Client.cancelRequest, hcl] at h
      obtain ⟨rfl, rfl⟩ := h
      simp [Client.cancelRequest, hcl]
    · by_cases hrq : c.clientState = ClientState.REQUESTING
      · simp [Client.cancelRequest, hcl, hrq] at h
        obtain ⟨rfl, rfl⟩ := h
        have hstate : (({ c with clientState := ClientState.CANCELLING, cancelPromise := some 2 } : Client).teardown
            (some (.ERROR_HTTP_REQUEST_CANCELLED c.origin))).clientState =
            ClientState.CANCELLING :=
          teardown_clientState _ _
        have hcp : (({ c with clientState := ClientState.CANCELLING, cancelPromise := some 2 } : Client).teardown
            (some (.ERROR_HTTP_REQUEST_CANCELLED c.origin))).cancelPromise = some 2 :=
          teardown_cancelPromise _ _
        simp [Client.cancelRequest, hstate, hcp]
      · simp [Client.cancelRequest, hcl, hrq] at h
  · intro hrq hcl
    simp [Client.cancelRequest, hrq, hcl]

/-- After the URL argument resolves, the constructor is the remaining
validation chain on the resolved URL. -/
theorem construct_resolves (p : String → Option URLRec) (url : JSVal) (o : CtorOptions)
    (u : URLRec) (hres : resolvedURL p url = some u) :
    HTTPClient.construct p url o = HTTPClient.constructValidated o u := by
  cases url <;> simp_all [HTTPClient.construct, resolvedURL, typeofJS, instanceofURL]

/-- C5: every constructor input that violates a validation rule raises the
matching validation error kind synchronously — the two URL type guards, the
URL string parse, the protocol check, the method type and membership checks,
the headers type check, the timeout type and bound checks, the body type
check, the body-encoding type and membership checks (the encoding checks run
exactly when a body option is present), and the auto-JSON option type check —
and no configuration is produced on any of these paths, while an input
satisfying every rule yields exactly the configuration record in state
CREATED. -/
theorem claim_C5_constructor_validation (p : String → Option URLRec) (url : JSVal)
    (o : CtorOptions) :
    ((typeofJS url ≠ "string" ∧ typeofJS url ≠ "object") →
    HTTPClient.construct p url o = .error .ERROR_HTTP_REQUEST_URL_TYPE_INVALID) ∧
    ((typeofJS url = "object" ∧ instanceofURL url = false) →
    HTTPClient.construct p url o = .error .ERROR_HTTP_REQUEST_URL_TYPE_INVALID) ∧
    (∀ s, url = JSVal.string s → p s = none →
    HTTPClient.construct p url o = .error .ERROR_HTTP_REQUEST_URL_STRING_INVALID) ∧
    (∀ u, resolvedURL p url = some u →
    (((u.protocol ≠ "http:" ∧ u.protocol ≠ "https:") →
    HTTPClient.construct p url o =
    .error (.ERROR_HTTP_REQUEST_URL_PROTOCOL_INVALID u.protocol)) ∧
    (¬(u.protocol ≠ "http:" ∧ u.protocol ≠ "https:") →
    ((typeofJS (ctorMethod o) ≠ "string" →
    HTTPClient.construct p url o =
    .error .ERROR_HTTP_REQUEST_METHOD_TYPE_INVALID) ∧
    (typeofJS (ctorMethod o) = "string" →
    ((constants.HTTP_METHODS.contains (toUpperJS (jsStringValue (ctorMethod o))) = false →
    HTTPClient.construct p url o =
    .error (.ERROR_HTTP_REQUEST_METHOD_INVALID (toUpperJS (jsStringValue (ctorMethod o))))) ∧
    (constants.HTTP_METHODS.contains (toUpperJS (jsStringValue (ctorMethod o))) = true →
    (((typeofJS (ctorHeaders o) ≠ "undefined" ∧ typeofJS (ctorHeaders o) ≠ "object") →
    HTTPClient.construct p url o =
    .error .ERROR_HTTP_REQUEST_HEADERS_TYPE_INVALID) ∧
    (¬(typeofJS (ctorHeaders o) ≠ "undefined" ∧ typeofJS (ctorHeaders o) ≠ "object") →
    ((numberIsIntegerJS (ctorTimeout o) = false →
    HTTPClient.construct p url o =
    .error .ERROR_HTTP_REQUEST_TIMEOUT_TYPE_INVALID) ∧
    (numberIsIntegerJS (ctorTimeout o) = true →
    ((jsNumberValue (ctorTimeout o) < 1 →
    HTTPClient.construct p url o =
    .error .ERROR_HTTP_REQUEST_TIMEOUT_OUT_OF_BOUNDS) ∧
    (¬(jsNumberValue (ctorTimeout o) < 1) →
    ((typeofJS o.body ≠ "undefined" →
    (((typeofJS o.body ≠ "string" ∧ typeofJS o.body ≠ "object") →
    HTTPClient.construct p url o =
    .error .ERROR_HTTP_REQUEST_BODY_TYPE_INVALID) ∧
    (¬(typeofJS o.body ≠ "string" ∧ typeofJS o.body ≠ "object") →
    ((typeofJS (ctorBodyEncoding o) ≠ "string" →
    HTTPClient.construct p url o =
    .error .ERROR_HTTP_REQUEST_BODY_ENCODING_TYPE_INVALID) ∧
    (typeofJS (ctorBodyEncoding o) = "string" →
    ((constants.BODY_ENCODINGS.contains (toLowerJS (jsStringValue (ctorBodyEncoding o))) = false →
    HTTPClient.construct p url o =
    .error (.ERROR_HTTP_REQUEST_BODY_ENCODING_INVALID (toLowerJS (jsStringValue (ctorBodyEncoding o))))) ∧
    (constants.BODY_ENCODINGS.contains (toLowerJS (jsStringValue (ctorBodyEncoding o))) = true →
    ((typeofJS (ctorAutoJSON o) ≠ "boolean" →
    HTTPClient.construct p url o =
    .error .ERROR_AUTO_JSON_RESPONSE_PARSE_OPTION_TYPE_INVALID) ∧
    (typeofJS (ctorAutoJSON o) = "boolean" →
    HTTPClient.construct p url o =
    .ok ⟨u, toUpperJS (jsStringValue (ctorMethod o)), ctorHeaders o,
    jsNumberValue (ctorTimeout o), o.body,
    some (toLowerJS (jsStringValue (ctorBodyEncoding o))),
    jsBooleanValue (ctorAutoJSON o), ClientState.CREATED⟩))))))))) ∧
    (typeofJS o.body = "undefined" →
    ((typeofJS (ctorAutoJSON o) ≠ "boolean" →
    HTTPClient.construct p url o =
    .error .ERROR_AUTO_JSON_RESPONSE_PARSE_OPTION_TYPE_INVALID) ∧
    (typeofJS (ctorAutoJSON o) = "boolean" →
    HTTPClient.construct p url o =
    .ok ⟨u, toUpperJS (jsStringValue (ctorMethod o)), ctorHeaders o,
    jsNumberValue (ctorTimeout o), JSVal.null, none,
    jsBooleanValue (ctorAutoJSON o), ClientState.CREATED⟩)))))))))))))))))
:= by
  refine ⟨?_, ?_, ?_, ?_⟩
  · intro hv
    simp [HTTPClient.construct, hv]
  · intro hv
    rcases hv with ⟨hobj, hinst⟩
    simp [HTTPClient.construct, hobj, hinst]
  · intro s hu hp
    subst hu
    simp [HTTPClient.construct, typeofJS, resolvedURL, hp]
  · intro u hres
    rw [construct_resolves p url o u hres]
    constructor
    · intro hv
      simp [HTTPClient.constructValidated, hv]
    · intro hproto
      constructor
      · intro hv
        simp [HTTPClient.constructValidated, hproto, hv]
      · intro hmt
        constructor
        · intro hv
          have hv2 : toUpperJS (jsStringValue (ctorMethod o)) ∉ constants.HTTP_METHODS := by
            simpa using hv
          simp [HTTPClient.constructValidated, hproto, hmt, hv2]
        · intro hm
          have hm2 : toUpperJS (jsStringValue (ctorMethod o)) ∈ constants.HTTP_METHODS := by
            simpa using hm
          constructor
          · intro hv
            simp [HTTPClient.constructValidated, hproto, hmt, hm2, hv]
          · intro hhd
            constructor
            · intro hv
              simp [HTTPClient.constructValidated, hproto, hmt, hm2, hhd, hv]
            · intro hti
              constructor
              · intro hv
                simp [HTTPClient.constructValidated, hproto, hmt, hm2, hhd, hti, hv]
              · intro htb
                constructor
                · intro hbp
                  constructor
                  · intro hv
                    simp [HTTPClient.constructValidated, hproto, hmt, hm2, hhd, hti, htb,
                      hbp, hv]
                  · intro hbt
                    constructor
                    · intro hv
                      simp [HTTPClient.constructValidated, hproto, hmt, hm2, hhd, hti, htb,
                        hbp, hbt, hv]
                    · intro het
                      constructor
                      · intro hv
                        have hv2 : toLowerJS (jsStringValue (ctorBodyEncoding o)) ∉
                            constants.BODY_ENCODINGS := by
                          simpa using hv
                        simp [HTTPClient.constructValidated, hproto, hmt, hm2, hhd, hti,
                          htb, hbp, hbt, het, hv2]
                      · intro he
                        have he2 : toLowerJS (jsStringValue (ctorBodyEncoding o)) ∈
                            constants.BODY_ENCODINGS := by
                          simpa using he
                        constructor
                        · intro hv
                          simp [HTTPClient.constructValidated, hproto, hmt, hm2, hhd, hti,
                            htb, hbp, hbt, het, he2, hv]
                        · intro ha
                          simp [HTTPClient.constructValidated, hproto, hmt, hm2, hhd, hti,
                            htb, hbp, hbt, het, he2, ha]
                · intro hba
                  constructor
                  · intro hv
                    simp [HTTPClient.constructValidated, hproto, hmt, hm2, hhd, hti, htb,
                      hba, hv]
                  · intro ha
                    simp [HTTPClient.constructValidated, hproto, hmt, hm2, hhd, hti, htb,
                      hba, ha]

/-- C8: the closed set of request methods the constructor accepts is exactly
GET, POST, PUT, DELETE, PATCH and HEAD; HEAD in particular is accepted; and
any method whose uppercased text is outside the set raises
ERROR_HTTP_REQUEST_METHOD_INVALID. -/
theorem claim_C8_http_methods (p : String → Option URLRec) (url : JSVal) (o : CtorOptions) :
    constants.HTTP_METHODS = ["GET", "POST", "PUT", "DELETE", "PATCH", "HEAD"] ∧
    constants.HTTP_METHODS.contains "HEAD" = true ∧
    HTTPClient.construct parseURLNone (JSVal.urlObject "http:" "http://example.com")
      headOnlyOptions =
      .ok ⟨⟨"http:", "http://example.com"⟩, "HEAD", JSVal.strMap [], 60000, JSVal.null, none,
        true, ClientState.CREATED⟩ ∧
    (∀ m u, resolvedURL p url = some u →
      ¬(u.protocol ≠ "http:" ∧ u.protocol ≠ "https:") →
      o.method = JSVal.string m →
      constants.HTTP_METHODS.contains (toUpperJS m) = false →
      HTTPClient.construct p url o = .error (.ERROR_HTTP_REQUEST_METHOD_INVALID (toUpperJS m))) := by
  refine ⟨rfl, rfl, rfl, ?_⟩
  intro m u hres hproto hm hcont
  have hcm : ctorMethod o = JSVal.string m := by simp [ctorMethod, orDefault, hm]
  have hcont2 : toUpperJS m ∉ constants.HTTP_METHODS := by simpa using hcont
  rw [construct_resolves p url o u hres]
  simp [HTTPClient.constructValidated, hproto, hcm, typeofJS, jsStringValue, hcont2]

/-- A value passing Number.isInteger is of number type. -/
theorem typeof_number_of_isInteger (v : JSVal) (h : numberIsIntegerJS v = true) :
    typeofJS v = "number" := by
  cases v <;> simp_all [numberIsIntegerJS, typeofJS]

/-- C9: the HTTPResponse constructor raises its five validation kinds in
source order — headers not of object type, status code not an integer
number, status code outside 100..599, status message not a string, and a
present body not of object type — and every successfully constructed
response value has its status code within 100..599. -/
theorem claim_C9_http_response_validation (headers sc sm body : JSVal) :
    (typeofJS headers ≠ "object" →
      HTTPResponse.construct headers sc sm body =
        .error .ERROR_HTTP_RESPONSE_HEADERS_TYPE_INVALID) ∧
    (typeofJS headers = "object" →
      (((typeofJS sc ≠ "number" ∨ numberIsIntegerJS sc = false) →
        HTTPResponse.construct headers sc sm body =
          .error .ERROR_HTTP_RESPONSE_STATUS_CODE_TYPE_INVALID) ∧
      (numberIsIntegerJS sc = true →
        (((jsNumberValue sc < 100 ∨ 599 < jsNumberValue sc) →
          HTTPResponse.construct headers sc sm body =
            .error .ERROR_HTTP_RESPONSE_STATUS_CODE_OUT_OF_BOUNDS) ∧
        (¬(jsNumberValue sc < 100 ∨ 599 < jsNumberValue sc) →
          ((typeofJS sm ≠ "string" →
            HTTPResponse.construct headers sc sm body =
              .error .ERROR_HTTP_RESPONSE_STATUS_MESSAGE_TYPE_INVALID) ∧
          (typeofJS sm = "string" → typeofJS body ≠ "undefined" → typeofJS body ≠ "object" →
            HTTPResponse.construct headers sc sm body =
              .error .ERROR_HTTP_RESPONSE_BODY_TYPE_INVALID))))))) ∧
    (∀ r, HTTPResponse.construct headers sc sm body = .ok r →
      100 ≤ r.statusCode ∧ r.statusCode ≤ 599) := by
  refine ⟨?_, ?_, ?_⟩
  · intro hv
    simp [HTTPResponse.construct, hv]
  · intro hh
    refine ⟨?_, ?_⟩
    · intro hv
      simp [HTTPResponse.construct, hh, hv]
    · intro hsc
      have hn := typeof_number_of_isInteger sc hsc
      refine ⟨?_, ?_⟩
      · intro hv
        simp [HTTPResponse.construct, hh, hn, hsc, hv]
      · intro hnb
        refine ⟨?_, ?_⟩
        · intro hv
          simp [HTTPResponse.construct, hh, hn, hsc, hnb, hv]
        · intro hsm hbp hbt
          simp [HTTPResponse.construct, hh, hn, hsc, hnb, hsm, hbp, hbt]
  · intro r h
    unfold HTTPResponse.construct at h
    split_ifs at h with h1 h2 h3 h4 h5 h6
    · injection h with h7
      subst h7
      exact ⟨by simp; omega, by simp; omega⟩
    · injection h with h7
      subst h7
      exact ⟨by simp; omega, by simp; omega⟩

/-- C6: a structured (non-Buffer object) request body is serialized with
JSON.stringify and encoded as the UTF-8 bytes of the serialized text, the
conversion raising ERROR_HTTP_REQUEST_BODY_OBJECT_NOT_SERIALIZABLE exactly
when the serialization fails (which teardown turns into a rejection of the
perform-future); and whenever sendRequestBody produces a body buffer, the
outgoing Content-Length header is set to exactly that buffer's byte count,
while paths producing no buffer set no Content-Length header. -/
theorem claim_C6_structured_body_and_content_length
    (bufferFromString : String → Option String → List Nat) (enc : Option String)
    (g : ObjGraph) :
    (HTTPClient.convertRequestBodyToBuffer bufferFromString (JSVal.object g) enc =
      (match g.stringify with
       | some s => .ok (utf8Bytes s)
       | none => .error .ERROR_HTTP_REQUEST_BODY_OBJECT_NOT_SERIALIZABLE)) ∧
    (∀ body buf,
      (HTTPClient.sendRequestBodyPlan bufferFromString body enc).bodyBuffer = some buf →
      (HTTPClient.sendRequestBodyPlan bufferFromString body enc).contentLengthHeader =
        some buf.length) ∧
    (∀ body e0,
      (HTTPClient.sendRequestBodyPlan bufferFromString body enc).teardownError = some e0 →
      (HTTPClient.sendRequestBodyPlan bufferFromString body enc).bodyBuffer = none ∧
      (HTTPClient.sendRequestBodyPlan bufferFromString body enc).contentLengthHeader = none) := by
  refine ⟨?_, ?_, ?_⟩
  · cases hst : g.stringify with
    | some s =>
      simp [HTTPClient.convertRequestBodyToBuffer, typeofJS, instanceofBuffer,
        jsonStringifyJS, hst]
    | none =>
      simp [HTTPClient.convertRequestBodyToBuffer, typeofJS, instanceofBuffer,
        jsonStringifyJS, hst]
  · intro body buf h
    by_cases hb : body = JSVal.null
    · simp [HTTPClient.sendRequestBodyPlan, hb] at h
    · cases hc : HTTPClient.convertRequestBodyToBuffer bufferFromString body enc with
      | error e =>
        simp [HTTPClient.sendRequestBodyPlan, hb, hc] at h
      | ok bb =>
        simp [HTTPClient.sendRequestBodyPlan, hb, hc] at h ⊢
        rw [h]
  · intro body e0 h
    by_cases hb : body = JSVal.null
    · simp [HTTPClient.sendRequestBodyPlan, hb] at h
    · cases hc : HTTPClient.convertRequestBodyToBuffer bufferFromString body enc with
      | error e =>
        simp [HTTPClient.sendRequestBodyPlan, hb, hc]
      | ok bb =>
        simp [HTTPClient.sendRequestBodyPlan, hb, hc] at h

/-- The HTTPResponse constructor on a header map and a valid head: an
object-typed body is stored, an undefined body is omitted, and any other
body raises the body-type error. -/
theorem HTTPResponse_construct_cases (headers0 sc sm body : JSVal)
    (hh : typeofJS headers0 = "object") (hsc : numberIsIntegerJS sc = true)
    (hlo : 100 ≤ jsNumberValue sc) (hhi : jsNumberValue sc ≤ 599)
    (hsm : typeofJS sm = "string") :
    (typeofJS body = "object" →
      HTTPResponse.construct headers0 sc sm body =
        .ok ⟨headers0, jsNumberValue sc, jsStringValue sm, some body⟩) ∧
    (body = JSVal.undefined →
      HTTPResponse.construct headers0 sc sm body =
        .ok ⟨headers0, jsNumberValue sc, jsStringValue sm, none⟩) ∧
    (typeofJS body ≠ "object" → typeofJS body ≠ "undefined" →
      HTTPResponse.construct headers0 sc sm body =
        .error .ERROR_HTTP_RESPONSE_BODY_TYPE_INVALID) := by
  have hn := typeof_number_of_isInteger sc hsc
  have hbounds : ¬(jsNumberValue sc < 100 ∨ 599 < jsNumberValue sc) := by omega
  refine ⟨?_, ?_, ?_⟩
  · intro hb
    simp [HTTPResponse.construct, hh, hn, hsc, hbounds, hsm, hb]
  · intro hb
    subst hb
    simp [HTTPResponse.construct, hh, hn, hsc, hbounds, hsm,
      show typeofJS JSVal.undefined = "undefined" from rfl]
  · intro hb1 hb2
    simp [HTTPResponse.construct, hh, hn, hsc, hbounds, hsm, hb1, hb2]

/-- C3 as amended: for a non-empty accumulated body with a valid response
head, when automatic JSON parsing is disabled, or the content type is not
application/json, or the charset is outside the encoding set, the response
body is the raw byte buffer; when all three conditions hold and JSON.parse
yields a value of JS object type the body is that structured value, when it
yields a non-object primitive the HTTPResponse body-type check throws out of
the end handler and neither a response nor a rejection is produced, and when
JSON.parse throws the client tears down with
ERROR_HTTP_RESPONSE_BODY_NOT_PARSEABLE_AS_JSON. -/
theorem claim_C3_json_autoparse
    (parseCT : String → Option ContentTypeObj)
    (bufferToString : List Nat → String → String)
    (jsonParseFn : String → Option JSVal)
    (auto : Bool) (headers : List (String × String)) (sc sm : JSVal)
    (chunks : List (List Nat))
    (hsc : numberIsIntegerJS sc = true)
    (hlo : 100 ≤ jsNumberValue sc) (hhi : jsNumberValue sc ≤ 599)
    (hsm : typeofJS sm = "string")
    (hnz : ¬((chunks.map List.length).sum = 0)) :
    ((auto = false ∨
        HTTPClient.getResponseContentType parseCT (some headers) ≠ some "application/json" ∨
        constants.BODY_ENCODINGS.contains (HTTPClient.responseCharsetOf parseCT headers) = false) →
      HTTPClient.processResponseEnd parseCT bufferToString jsonParseFn auto headers sc sm chunks =
        .settledOk ⟨JSVal.strMap headers, jsNumberValue sc, jsStringValue sm,
          some (JSVal.buffer chunks.flatten)⟩) ∧
    (¬(auto = false ∨
        HTTPClient.getResponseContentType parseCT (some headers) ≠ some "application/json" ∨
        constants.BODY_ENCODINGS.contains (HTTPClient.responseCharsetOf parseCT headers) = false) →
      ((∀ v, jsonParseFn (bufferToString chunks.flatten
          (HTTPClient.responseCharsetOf parseCT headers)) = some v →
        ((typeofJS v = "object" →
          HTTPClient.processResponseEnd parseCT bufferToString jsonParseFn auto headers sc sm
              chunks =
            .settledOk ⟨JSVal.strMap headers, jsNumberValue sc, jsStringValue sm, some v⟩) ∧
        (typeofJS v ≠ "object" → typeofJS v ≠ "undefined" →
          HTTPClient.processResponseEnd parseCT bufferToString jsonParseFn auto headers sc sm
              chunks =
            .threw .ERROR_HTTP_RESPONSE_BODY_TYPE_INVALID))) ∧
      (jsonParseFn (bufferToString chunks.flatten
          (HTTPClient.responseCharsetOf parseCT headers)) = none →
        HTTPClient.processResponseEnd parseCT bufferToString jsonParseFn auto headers sc sm
            chunks =
          .toreDown .ERROR_HTTP_RESPONSE_BODY_NOT_PARSEABLE_AS_JSON))) := by
  refine ⟨?_, ?_⟩
  · intro hcond
    have hcraw := (HTTPResponse_construct_cases (JSVal.strMap headers) sc sm
      (JSVal.buffer chunks.flatten) rfl hsc hlo hhi hsm).1 rfl
    rcases hcond with ha | hct | hcs
    · simp [HTTPClient.processResponseEnd, hnz, ha, hcraw]
    · simp [HTTPClient.processResponseEnd, hnz, hct, hcraw]
    · have hcs2 : HTTPClient.responseCharsetOf parseCT headers ∉ constants.BODY_ENCODINGS := by
        simpa using hcs
      simp [HTTPClient.processResponseEnd, hnz, hcs2, hcraw]
  · intro hcond
    push_neg at hcond
    obtain ⟨ha, hct, hcs⟩ := hcond
    have ha2 : auto = true := by simpa using ha
    have hcs2 : HTTPClient.responseCharsetOf parseCT headers ∈ constants.BODY_ENCODINGS := by
      simpa using hcs
    refine ⟨?_, ?_⟩
    · intro v hv
      refine ⟨?_, ?_⟩
      · intro hobj
        have hc1 := (HTTPResponse_construct_cases (JSVal.strMap headers) sc sm v rfl hsc hlo
          hhi hsm).1 hobj
        simp [HTTPClient.processResponseEnd, hnz, ha2, hct, hcs2, hv, hc1]
      · intro hb1 hb2
        have hc2 := (HTTPResponse_construct_cases (JSVal.strMap headers) sc sm v rfl hsc hlo
          hhi hsm).2.2 hb1 hb2
        simp [HTTPClient.processResponseEnd, hnz, ha2, hct, hcs2, hv, hc2]
    · intro hnone
      simp [HTTPClient.processResponseEnd, hnz, ha2, hct, hcs2, hnone]

/-- C3 counterexample: a response whose non-empty body is the JSON document
42 under Content-Type application/json with automatic parsing on satisfies
the three auto-parse conditions and JSON-decodes successfully to the number
42, yet the end handler neither produces a response whose body is that
structured value nor rejects with the not-parseable error: the HTTPResponse
constructor's body-type check throws inside the end handler, so the claim as
stated fails at this input. -/
theorem claim_C3_counterexample :
    HTTPClient.getResponseContentType parseContentTypeJSON
        (some [("content-type", "application/json")]) = some "application/json" ∧
    HTTPClient.responseCharsetOf parseContentTypeJSON
        [("content-type", "application/json")] = "utf8" ∧
    constants.BODY_ENCODINGS.contains "utf8" = true ∧
    jsonParseNum (bufferToStringNum [52, 50] "utf8") = some (JSVal.numberInt 42) ∧
    HTTPClient.processResponseEnd parseContentTypeJSON bufferToStringNum jsonParseNum true
        [("content-type", "application/json")] (JSVal.numberInt 200) (JSVal.string "OK")
        [[52, 50]] =
      .threw .ERROR_HTTP_RESPONSE_BODY_TYPE_INVALID ∧
    (∀ r, HTTPClient.processResponseEnd parseContentTypeJSON bufferToStringNum jsonParseNum
        true [("content-type", "application/json")] (JSVal.numberInt 200) (JSVal.string "OK")
        [[52, 50]] ≠ EndOutcome.settledOk r) ∧
    (∀ e0, HTTPClient.processResponseEnd parseContentTypeJSON bufferToStringNum jsonParseNum
        true [("content-type", "application/json")] (JSVal.numberInt 200) (JSVal.string "OK")
        [[52, 50]] ≠ EndOutcome.toreDown e0) := by
  have hrun : HTTPClient.processResponseEnd parseContentTypeJSON bufferToStringNum jsonParseNum
      true [("content-type", "application/json")] (JSVal.numberInt 200) (JSVal.string "OK")
      [[52, 50]] = .threw .ERROR_HTTP_RESPONSE_BODY_TYPE_INVALID := by rfl
  refine ⟨rfl, rfl, rfl, rfl, hrun, ?_, ?_⟩
  · intro r hr
    rw [hrun] at hr
    simp at hr
  · intro e0 he
    rw [hrun] at he
    simp at he

/-- The REQUESTING trace state is reachable. -/
theorem witRequesting_reachable : Reachable witRequesting :=
  Reachable.next .makeRequestCall _ _ (Reachable.init "http://example.com" 50) rfl

/-- The post-socket trace state is reachable. -/
theorem witSocket_reachable : Reachable witSocket :=
  Reachable.next .socketReady _ _ witRequesting_reachable rfl

/-- The post-finish trace state is reachable. -/
theorem witAfterFinish_reachable : Reachable witAfterFinish :=
  Reachable.next .requestFinish _ _ witSocket_reachable rfl

/-- The post-head trace state is reachable. -/
theorem witHead_reachable : Reachable witHead :=
  Reachable.next .responseHeadReceived _ _ witAfterFinish_reachable rfl

/-- The post-end trace state is reachable. -/
theorem witEnded_reachable : Reachable witEnded :=
  Reachable.next (.responseEndOk witResponse) _ _ witHead_reachable rfl

/-- The settled trace state is reachable. -/
theorem witSettled_reachable : Reachable witSettled :=
  Reachable.next .deferredSettleRuns _ _ witEnded_reachable rfl

/-- The errored trace state is reachable. -/
theorem witErrored_reachable : Reachable witErrored :=
  Reachable.next (.requestErrorEvent (some "ECONNRESET")) _ _ witSocket_reachable rfl

/-- Witness for C1: the settled trace state instantiates the settlement /
terminal-state correspondence. -/
theorem claim_C1_witness :
    (witSettled.clientState = ClientState.FULFILLED ↔
      ∃ r, Settlement.resolvedWith witResponse = Settlement.resolvedWith r) ∧
    (witSettled.clientState = ClientState.CANCELLED ↔
      ∃ o, Settlement.resolvedWith witResponse =
        Settlement.rejectedWith (HTTPClientError.ERROR_HTTP_REQUEST_CANCELLED o)) ∧
    ((∀ r, Settlement.resolvedWith witResponse ≠ Settlement.resolvedWith r) →
      (∀ o, Settlement.resolvedWith witResponse ≠
        Settlement.rejectedWith (HTTPClientError.ERROR_HTTP_REQUEST_CANCELLED o)) →
      witSettled.clientState = ClientState.FAILED) :=
  claim_C1_settlement_matches_terminal_state witSettled (Settlement.resolvedWith witResponse)
    witSettled_reachable rfl

/-- Witness for C2: the re-entrancy and state-guard rules instantiated at
the post-finish (REQUESTING) and settled (FULFILLED) trace states. -/
theorem claim_C2_witness :
    witAfterFinish.makeRequest = .ok (witAfterFinish, some 1) ∧
    witSettled.makeRequest = .error .ERROR_HTTP_REQUEST_MAKE_REQUEST_UNAVAILABLE ∧
    witSettled.cancelRequest = .error .ERROR_HTTP_REQUEST_CANCEL_UNAVAILABLE := by
  refine ⟨?_, ?_, ?_⟩
  · exact (claim_C2_reentrancy_and_state_guards witAfterFinish).1 rfl
  · exact (claim_C2_reentrancy_and_state_guards witSettled).2.2.1 (by decide) (by decide)
  · exact (claim_C2_reentrancy_and_state_guards witSettled).2.2.2.2.2 (by decide) (by decide)

/-- Witness for the amended C3: with automatic parsing disabled the end
handler settles with the raw byte buffer as the body. -/
theorem claim_C3_witness :
    HTTPClient.processResponseEnd parseContentTypeJSON bufferToStringNum jsonParseNum false
        [("content-type", "application/json")] (JSVal.numberInt 200) (JSVal.string "OK")
        [[52, 50]] =
      .settledOk ⟨JSVal.strMap [("content-type", "application/json")], 200, "OK",
        some (JSVal.buffer [52, 50])⟩ := by
  have h := claim_C3_json_autoparse parseContentTypeJSON bufferToStringNum jsonParseNum false
    [("content-type", "application/json")] (JSVal.numberInt 200) (JSVal.string "OK")
    [[52, 50]] rfl (by decide) (by decide) rfl (by decide)
  exact h.1 (Or.inl rfl)

/-- Witness for C4: the response timer firing on the post-finish trace state
records the response-timeout cause. -/
theorem claim_C4_witness :
    witAfterFinish.requestFinished = true ∧
    witRespTimedOut.teardownCause =
      some (some (HTTPClientError.ERROR_HTTP_RESPONSE_TIMED_OUT "http://example.com" 50)) ∧
    (∀ o t, witRespTimedOut.teardownCause ≠
      some (some (HTTPClientError.ERROR_HTTP_REQUEST_TIMED_OUT o t))) :=
  claim_C4_response_timer_fires_response_timeout witAfterFinish witRespTimedOut
    witAfterFinish_reachable rfl rfl

/-- Witness for C5: a body encoding outside the closed set raises the
matching validation kind. -/
theorem claim_C5_witness :
    HTTPClient.construct parseURLNone (JSVal.urlObject "http:" "http://example.com")
      badEncodingOptions = .error (.ERROR_HTTP_REQUEST_BODY_ENCODING_INVALID "bogus") := by
  have h := (claim_C5_constructor_validation parseURLNone
    (JSVal.urlObject "http:" "http://example.com") badEncodingOptions).2.2.2
    ⟨"http:", "http://example.com"⟩ rfl
  have h1 := h.2 (by decide)
  have h2 := h1.2 rfl
  have h3 := h2.2 (by decide)
  have h4 := h3.2 (by decide)
  have h5 := h4.2 rfl
  have h6 := h5.2 (by decide)
  have h7 := h6.1 (by decide)
  have h8 := h7.2 (by decide)
  have h9 := h8.2 rfl
  exact h9.1 (by decide)

/-- Witness for C6: a self-cycle object body fails conversion with the
not-serializable error, and a three-byte buffer body sets Content-Length 3. -/
theorem claim_C6_witness :
    HTTPClient.convertRequestBodyToBuffer utf8OnlyCodec (JSVal.object selfCycleGraph) none =
      .error .ERROR_HTTP_REQUEST_BODY_OBJECT_NOT_SERIALIZABLE ∧
    (HTTPClient.sendRequestBodyPlan utf8OnlyCodec (JSVal.buffer [1, 2, 3])
      none).contentLengthHeader = some 3 := by
  have h := claim_C6_structured_body_and_content_length utf8OnlyCodec none selfCycleGraph
  refine ⟨?_, ?_⟩
  · exact h.1.trans rfl
  · exact h.2.1 (JSVal.buffer [1, 2, 3]) [1, 2, 3] rfl

/-- Witness for C7: the timer rules instantiated at the post-finish trace
state, where the response timer is the armed one. -/
theorem claim_C7_witness :
    (witAfterFinish.requestTimerArmed = false ∨ witAfterFinish.responseTimerArmed = false) ∧
    (∀ err, witAfterFinish.teardownInitiated = false →
      ((witAfterFinish.teardown err).requestTimerArmed = false ∧
        (witAfterFinish.teardown err).responseTimerArmed = false)) ∧
    (∀ c2, step Event.socketReady witAfterFinish = some c2 → c2.requestTimerArmed = true) ∧
    (∀ c2, step Event.requestFinish witAfterFinish = some c2 →
      c2.requestTimerArmed = false ∧ c2.responseTimerArmed = true) :=
  claim_C7_timer_exclusivity witAfterFinish witAfterFinish_reachable

/-- Witness for C8: the unrecognized method BREW raises the method-invalid
error. -/
theorem claim_C8_witness :
    HTTPClient.construct parseURLNone (JSVal.urlObject "http:" "http://example.com")
      brewOptions = .error (.ERROR_HTTP_REQUEST_METHOD_INVALID "BREW") := by
  have h := (claim_C8_http_methods parseURLNone
    (JSVal.urlObject "http:" "http://example.com") brewOptions).2.2.2 "BREW"
    ⟨"http:", "http://example.com"⟩ rfl (by decide) rfl (by decide)
  exact h

/-- Witness for C9: a status code of 600 raises the out-of-bounds error. -/
theorem claim_C9_witness :
    HTTPResponse.construct (JSVal.strMap []) (JSVal.numberInt 600) (JSVal.string "X")
      JSVal.undefined = .error .ERROR_HTTP_RESPONSE_STATUS_CODE_OUT_OF_BOUNDS := by
  have h := ((claim_C9_http_response_validation (JSVal.strMap []) (JSVal.numberInt 600)
    (JSVal.string "X") JSVal.undefined).2.1 rfl).2 rfl
  exact h.1 (by decide)

/-- Witness for C10: after a connection-reset teardown in REQUESTING, the
late cancel succeeds into CANCELLING but its future stays unresolved in
every reachable continuation, and the deferred settle still fails the
instance. -/
theorem claim_C10_witness :
    witErrored.cancelRequest = .ok (witErroredCancelling, some 2) ∧
    (∀ c3, ReachableFrom witErroredCancelling c3 →
      c3.cancelFutureResolved = false ∧
      c3.teardownCause = some (some (HTTPClientError.ERROR_SYSTEM_MAPPED "ECONNRESET"))) ∧
    (∀ c3, step Event.deferredSettleRuns witErroredCancelling = some c3 →
      c3.clientState = ClientState.FULFILLED ∨ c3.clientState = ClientState.FAILED) :=
  claim_C10_dropped_cancel_future_never_resolves witErrored
    (some (HTTPClientError.ERROR_SYSTEM_MAPPED "ECONNRESET")) witErrored_reachable rfl
    (by intro e0 he; injection he with h2; subst h2; rfl) rfl
